import Mathlib

/-!
# GLTearDetect: a shallow embedding of `teardetect.c`

The C program keeps all of its run state in one `TDContext` value that every
function receives by pointer.  Here each function becomes a pure function from
the old context to the new one.

Conventions of the embedding:

* `unsigned int` values are `Nat`, reduced modulo `2^32` where the C code can
  overflow; `uint64_t`/`GLuint64` values are `Nat` modulo `2^64`.
* `int` values are `Int`; `++`/`--` on `swapInterval` wrap in two's complement
  (`wrap_int32`), the behaviour of the targets the program is built for.
* `GLfloat`/`double` values are exact rationals (`Rat`): rounding is not
  modelled.
* Calls into GLFW / OpenGL / the OS that return data are oracles: their
  results are inputs of the embedded function.  Calls that only have an
  outside effect are recorded in a trace where a property is about them.
-/

namespace GLTearDetect

/-! ## Machine arithmetic -/

/-- Number of values of an `unsigned int`. -/
def UINT_RANGE : Nat := 4294967296

/-- Number of values of a `uint64_t`. -/
def UINT64_RANGE : Nat := 18446744073709551616

/-- Largest `unsigned int`, all 32 bits set. -/
def UINT_MAX : Nat := 4294967295

/-- Largest and smallest `int`. -/
def INT_MAX : Int := 2147483647
def INT_MIN : Int := -2147483648

/-- Reduce an integer to the `int` range, two's complement. -/
def wrap_int32 (x : Int) : Int := (x + 2147483648) % 4294967296 - 2147483648

/-- The C expression `~m` converted to `unsigned int`. -/
def bnot32 (m : Nat) : Nat := UINT_MAX ^^^ m

/-- The C test `flags & bit`, as a truth value. -/
def hasFlag (flags bit : Nat) : Bool := (flags &&& bit) != 0

/-! ## Constants of `teardetect.c` -/

def TDWIN_FULLSCREEN : Nat := 0x1
def TDWIN_FULLSCREEN_MODE_SWITCH : Nat := 0x2
def TDWIN_DECORATED : Nat := 0x4
def TDWIN_FLAGS_DEFAULT : Nat := TDWIN_DECORATED

def TDDISP_NONE : Nat := 0
def TDDISP_COLORS : Nat := 1
def TDDISP_PULSE : Nat := 2
def TDDISP_BARS : Nat := 3
def TDDISP_MODE_COUNT : Nat := 4

/-- The three build variants selected by the preprocessor. -/
inductive Platform where
  | win32
  | linux
  | other
  deriving DecidableEq, Repr

def TDSWAP_CONTROL_EXT : Nat := 0
def TDSWAP_CONTROL_SGI : Nat := 1
def TDSWAP_CONTROL_MESA : Nat := 2

/-- The enumerator `TDSWAP_CONTROL_COUNT`: one mode on Windows, three on
Linux, and none when neither platform macro is defined. -/
def TDSWAP_CONTROL_COUNT : Platform → Nat
  | .win32 => 1
  | .linux => 3
  | .other => 0

def TIMER_QUERY_COUNT : Nat := 10

def TDCTX_RUN : Nat := 0x1
def TDCTX_DROP_WINDOW : Nat := 0x2
def TDCTX_SWAP_INTERVAL_SET : Nat := 0x4
def TDCTX_BINDING_EXTENSIONS_LOADED : Nat := 0x8
def TDCTX_GL_FLUSH : Nat := 0x10
def TDCTX_GL_FINISH : Nat := 0x20
def TDCTX_FLAGS_DEFAULT : Nat := TDCTX_RUN

/-! ## Constants of `GLFW/glfw3.h` used by the key handler -/

def GLFW_PRESS : Int := 1
def GLFW_MOD_SHIFT : Nat := 0x0001
def GLFW_KEY_SPACE : Int := 32
def GLFW_KEY_ESCAPE : Int := 256
def GLFW_KEY_ENTER : Int := 257
def GLFW_KEY_BACKSPACE : Int := 259
def GLFW_KEY_RIGHT : Int := 262
def GLFW_KEY_LEFT : Int := 263
def GLFW_KEY_DOWN : Int := 264
def GLFW_KEY_UP : Int := 265
def GLFW_KEY_PAGE_UP : Int := 266
def GLFW_KEY_PAGE_DOWN : Int := 267
def GLFW_KEY_HOME : Int := 268
def GLFW_KEY_KP_DIVIDE : Int := 331
def GLFW_KEY_KP_MULTIPLY : Int := 332
def GLFW_KEY_KP_SUBTRACT : Int := 333
def GLFW_KEY_KP_ADD : Int := 334
/-- Character constants `'W'`, `'F'`, `'S'`, `'='`, `'-'`, `'B'`, `'V'`, `'C'`. -/
def KEY_W : Int := 87
def KEY_F : Int := 70
def KEY_S : Int := 83
def KEY_EQUAL : Int := 61
def KEY_MINUS : Int := 45
def KEY_B : Int := 66
def KEY_V : Int := 86
def KEY_C : Int := 67

/-! ## Data structures -/

/-- The struct `TDWindow`.  `win` is the `GLFWwindow*`, `none` for `NULL`. -/
structure TDWindow where
  win : Option Nat
  pos : Int × Int
  size : Int × Int
  windowed_pos : Int × Int
  windowed_size : Int × Int
  flags : Nat

/-- The struct `TDPulse`. -/
structure TDPulse where
  speed : Rat

/-- The struct `TDBars`; `data0`, `data1`, `data2` are `data[0..2]`. -/
structure TDBars where
  program : Nat
  vao : Nat
  loc_data : Int
  data0 : Rat
  data1 : Rat
  data2 : Rat

/-- The struct `TDContext`. -/
structure TDContext where
  win : TDWindow
  mode : Nat
  swapControlMode : Nat
  pulse : TDPulse
  bars : TDBars
  swapInterval : Int
  flags : Nat
  frame : Nat
  frame_int : Nat
  delta : Rat
  time : Rat
  timer_query_obj : Fin 10 → Nat
  timestamp : Fin 10 → Nat
  avg_lat : Rat
  avg_fps : Rat
  cur_lat : Rat
  busy_wait_ns : Nat
  sleep_ns : Nat

/-! ## Timers: `sleep_nanoseconds` -/

/-- A `struct timespec`. -/
structure Timespec where
  tv_sec : Int
  tv_nsec : Int
  deriving DecidableEq, Repr

/-- Reduce an integer to the range of a 64-bit signed `time_t` / `long`. -/
def wrap_int64 (x : Int) : Int :=
  (x + 9223372036854775808) % 18446744073709551616 - 9223372036854775808

/-- What one call of `nanosleep` reports: success, interruption by a signal
(`errno == EINTR`) with the remaining time written to `rem`, or another
error (which leaves `rem` as the caller initialised it). -/
inductive SleepOutcome where
  | completed
  | interrupted (rem : Timespec)
  | failed
  deriving DecidableEq, Repr

/-- The `do ... while (repeat)` loop of `sleep_nanoseconds`: `ts` is the
current request, the list holds what the successive `nanosleep` calls report.
The result is the list of requests made; `none` when the list of outcomes
ends before the loop does. -/
def sleep_loop : Timespec → List SleepOutcome → Option (List Timespec)
  | _, [] => none
  | ts, .completed :: _ => some [ts]
  | ts, .failed :: _ => some [ts]
  | ts, .interrupted rem :: rest =>
    match sleep_loop rem rest with
    | some reqs => some (ts :: reqs)
    | none => none

/-- The function `sleep_nanoseconds`, returning the requests passed to
`nanosleep` in order. -/
def sleep_nanoseconds (amount : Nat) (outcomes : List SleepOutcome) :
    Option (List Timespec) :=
  sleep_loop
    { tv_sec := wrap_int64 ((amount / 1000000000 : Nat) : Int),
      tv_nsec := wrap_int64 ((amount % 1000000000 : Nat) : Int) }
    outcomes

/-! ## GL window -/

/-- The function `td_win_init`. -/
def td_win_init : TDWindow :=
  { win := none,
    windowed_pos := (100, 100),
    windowed_size := (800, 600),
    flags := TDWIN_FLAGS_DEFAULT,
    pos := (100, 100),
    size := (800, 600) }

/-- The fields of a `GLFWvidmode` the program reads for the geometry. -/
structure VideoMode where
  width : Int
  height : Int

/-- What the windowing library answers during one `td_win_create`:
`monitor` is the result of `glfwGetPrimaryMonitor` (`none` for `NULL`) with,
inside, the result of `glfwGetVideoMode`; `created` is the handle returned by
`glfwCreateWindow`; `glad_ok` is the result of `gladLoadGL`. -/
structure CreateOracle where
  monitor : Option (Option VideoMode)
  created : Option Nat
  glad_ok : Bool

/-- The function `td_win_create`: the new window state and the return code. -/
def td_win_create (o : CreateOracle) (w : TDWindow) : TDWindow × Int :=
  -- td_win_destroy(w)
  let w := { w with win := none }
  let w :=
    if hasFlag w.flags TDWIN_FULLSCREEN then
      match o.monitor with
      | some (some vm) => { w with size := (vm.width, vm.height), pos := (0, 0) }
      | some none => w
      | none => w
    else
      { w with pos := w.windowed_pos, size := w.windowed_size }
  match o.created with
  | none => ({ w with win := none }, -1)
  | some h =>
    let w := { w with win := some h }
    if !o.glad_ok then (w, -2) else (w, 0)

/-! ## Display modes -/

/-- The function `td_disp_pulse_init`. -/
def td_disp_pulse_init : TDPulse := { speed := 3 }

/-- The function `td_disp_bars_init`. -/
def td_disp_bars_init : TDBars :=
  { program := 0, vao := 0, loc_data := -1, data0 := 32, data1 := 16 * 32, data2 := 0 }

/-- The function `td_disp_bars_gl_init`; the program, uniform location and
vertex array handed out by the GL are inputs. -/
def td_disp_bars_gl_init (program : Nat) (loc : Int) (vao : Nat) (bars : TDBars) : TDBars :=
  { bars with program := program, loc_data := loc, vao := vao }

/-- The function `td_disp_bars_destroy`. -/
def td_disp_bars_destroy (bars : TDBars) : TDBars :=
  let bars := if bars.program ≠ 0 then { bars with program := 0 } else bars
  if bars.vao ≠ 0 then { bars with vao := 0 } else bars

/-- The function `td_disp`, as far as it changes the context: only the bars
pattern writes, storing the scroll offset `fmodf(...)` in `data[2]`; that
value is the input `phase`.  Clearing, drawing, `glFlush`/`glFinish`, the
busy-wait and the sleep change nothing in the context. -/
def td_disp (phase : Rat) (ctx : TDContext) : TDContext :=
  if ctx.mode = TDDISP_BARS then
    { ctx with bars := { ctx.bars with data2 := phase } }
  else ctx

/-! ## Console output and window title -/

/-- A line written by `warn`, by `info`, or the status line composed by
`td_ctx_set_title`. -/
inductive Msg where
  | warn (text : String)
  | info (level : Nat) (text : String)
  | status (swapControlMode : Nat) (swapi : Option Int) (avg_fps avg_lat cur_lat : Rat)
      (flush finish : Bool) (sleep_ns busy_wait_ns : Nat)

/-- The function `td_ctx_set_title`: it changes nothing in the context; the
status line shows the swap interval only when `TDCTX_SWAP_INTERVAL_SET`. -/
def td_ctx_set_title (ctx : TDContext) : List Msg :=
  [Msg.status ctx.swapControlMode
    (if hasFlag ctx.flags TDCTX_SWAP_INTERVAL_SET then some ctx.swapInterval else none)
    ctx.avg_fps ctx.avg_lat ctx.cur_lat
    (hasFlag ctx.flags TDCTX_GL_FLUSH) (hasFlag ctx.flags TDCTX_GL_FINISH)
    ctx.sleep_ns ctx.busy_wait_ns]

/-! ## Swap control -/

/-- What the binding layer answers: `load_ok` is the result of `gladLoadWGL`
/ `gladLoadGLX`, `ext_swap_control` and `sgi_swap_control` are the values of
`GLAD_*_EXT_swap_control` and `GLAD_GLX_SGI_swap_control`, and `drawable` says
whether `glXGetCurrentDrawable` returned a drawable. -/
structure BindingOracle where
  load_ok : Bool
  ext_swap_control : Bool
  sgi_swap_control : Bool
  drawable : Bool

/-- The function `td_ctx_set_swap_interval`: the new context and the lines
written to the console, in order. -/
def td_ctx_set_swap_interval (p : Platform) (env : BindingOracle) (ctx : TDContext) :
    TDContext × List Msg :=
  match p with
  | .win32 =>
    if !hasFlag ctx.flags TDCTX_BINDING_EXTENSIONS_LOADED && !env.load_ok then
      (ctx, [Msg.warn "failed to load WGL extensions"])
    else
      let loaded := hasFlag ctx.flags TDCTX_BINDING_EXTENSIONS_LOADED
      let log := if loaded then [] else [Msg.info 2 "loaded WGL extensions"]
      let ctx :=
        if loaded then ctx
        else { ctx with flags := ctx.flags ||| TDCTX_BINDING_EXTENSIONS_LOADED }
      if ctx.swapControlMode = TDSWAP_CONTROL_EXT then
        if env.ext_swap_control then
          let log := log ++ [Msg.info 0 "setting swap interval [wglSwapIntervalEXT]"]
          let ctx := { ctx with flags := ctx.flags ||| TDCTX_SWAP_INTERVAL_SET }
          (ctx, log ++ td_ctx_set_title ctx)
        else
          (ctx, log ++ [Msg.warn "wglSwapIntervalEXT not available"])
      else
        (ctx, log ++ [Msg.warn "swap control mode not available"])
  | .linux =>
    if !hasFlag ctx.flags TDCTX_BINDING_EXTENSIONS_LOADED && !env.load_ok then
      (ctx, [Msg.warn "failed to load GLX extensions"])
    else
      let loaded := hasFlag ctx.flags TDCTX_BINDING_EXTENSIONS_LOADED
      let log := if loaded then [] else [Msg.info 2 "loaded GLX extensions"]
      let ctx :=
        if loaded then ctx
        else { ctx with flags := ctx.flags ||| TDCTX_BINDING_EXTENSIONS_LOADED }
      if ctx.swapControlMode = TDSWAP_CONTROL_EXT then
        if env.ext_swap_control then
          let log :=
            if env.drawable then log
            else log ++ [Msg.warn "failed to get current GLX drawable!"]
          let log := log ++ [Msg.info 0 "setting swap interval [glXSwapIntervalEXT]"]
          let ctx := { ctx with flags := ctx.flags ||| TDCTX_SWAP_INTERVAL_SET }
          (ctx, log ++ td_ctx_set_title ctx)
        else
          (ctx, log ++ [Msg.warn "glXSwapIntervalEXT not available"])
      else if ctx.swapControlMode = TDSWAP_CONTROL_SGI then
        if env.sgi_swap_control then
          let log := log ++ [Msg.info 0 "setting swap interval [glXSwapIntervalSGI]"]
          let ctx := { ctx with flags := ctx.flags ||| TDCTX_SWAP_INTERVAL_SET }
          (ctx, log ++ td_ctx_set_title ctx)
        else
          (ctx, log ++ [Msg.warn "glXSwapIntervalSGI not available"])
      else
        (ctx, log ++ [Msg.warn "swap control mode not available"])
  | .other =>
    (ctx, [Msg.warn "swap control not implemented for this platform"])

/-! ## Event handling -/

/-- The function `td_ctx_switch_fullscreen`. -/
def td_ctx_switch_fullscreen (ctx : TDContext) (fs_flags : Nat) : TDContext :=
  let win :=
    if hasFlag ctx.win.flags TDWIN_FULLSCREEN then
      let f := ctx.win.flags &&& bnot32 (TDWIN_FULLSCREEN ||| TDWIN_FULLSCREEN_MODE_SWITCH)
      { ctx.win with flags := f ||| TDWIN_DECORATED }
    else
      let f := ctx.win.flags &&& bnot32 (TDWIN_DECORATED ||| TDWIN_FULLSCREEN_MODE_SWITCH)
      { ctx.win with flags := f ||| (TDWIN_FULLSCREEN ||| fs_flags) }
  { ctx with win := win, flags := ctx.flags ||| TDCTX_DROP_WINDOW }

/-- The function `td_ctx_keyhandler`; the context is the window's user
pointer.  Console output of the handler is dropped. -/
def td_ctx_keyhandler (p : Platform) (env : BindingOracle) (ctx : TDContext)
    (key _scancode action : Int) (mods : Nat) : TDContext :=
  if action = GLFW_PRESS then
    if key = GLFW_KEY_ESCAPE then
      { ctx with flags := ctx.flags &&& bnot32 TDCTX_RUN }
    else if key = GLFW_KEY_RIGHT ∨ key = GLFW_KEY_SPACE then
      let m := (ctx.mode + 1) % UINT_RANGE
      { ctx with mode := if m ≥ TDDISP_MODE_COUNT then m - TDDISP_MODE_COUNT else m }
    else if key = GLFW_KEY_LEFT ∨ key = GLFW_KEY_BACKSPACE then
      { ctx with mode := if ctx.mode > 0 then ctx.mode - 1 else TDDISP_MODE_COUNT - 1 }
    else if key = GLFW_KEY_ENTER ∨ key = KEY_W then
      { ctx with flags := ctx.flags ||| TDCTX_DROP_WINDOW }
    else if key = GLFW_KEY_UP then
      { ctx with pulse := { ctx.pulse with speed := ctx.pulse.speed * 2 },
                 bars := { ctx.bars with data1 := ctx.bars.data1 * 2 } }
    else if key = GLFW_KEY_DOWN then
      { ctx with pulse := { ctx.pulse with speed := ctx.pulse.speed / 2 },
                 bars := { ctx.bars with data1 := ctx.bars.data1 / 2 } }
    else if key = GLFW_KEY_HOME then
      { ctx with pulse := { ctx.pulse with speed := 3 },
                 bars := { ctx.bars with data0 := 32, data1 := 16 * 32 } }
    else if key = GLFW_KEY_KP_MULTIPLY then
      { ctx with bars := { ctx.bars with data0 := ctx.bars.data0 * 2 } }
    else if key = GLFW_KEY_KP_DIVIDE then
      { ctx with bars := { ctx.bars with data0 := ctx.bars.data0 / 2 } }
    else if key = KEY_F then
      td_ctx_switch_fullscreen ctx
        (if hasFlag mods GLFW_MOD_SHIFT then TDWIN_FULLSCREEN_MODE_SWITCH else 0)
    else if key = KEY_S then
      let ctx :=
        if !hasFlag mods GLFW_MOD_SHIFT then
          { ctx with swapInterval := if ctx.swapInterval ≠ 0 then 0 else 1 }
        else ctx
      (td_ctx_set_swap_interval p env ctx).1
    else if key = KEY_EQUAL ∨ key = GLFW_KEY_KP_ADD then
      (td_ctx_set_swap_interval p env
        { ctx with swapInterval := wrap_int32 (ctx.swapInterval + 1) }).1
    else if key = KEY_MINUS ∨ key = GLFW_KEY_KP_SUBTRACT then
      (td_ctx_set_swap_interval p env
        { ctx with swapInterval := wrap_int32 (ctx.swapInterval - 1) }).1
    else if key = GLFW_KEY_PAGE_UP then
      let m := (ctx.swapControlMode + 1) % UINT_RANGE
      { ctx with swapControlMode :=
          if m ≥ TDSWAP_CONTROL_COUNT p then m - TDSWAP_CONTROL_COUNT p else m }
    else if key = GLFW_KEY_PAGE_DOWN then
      { ctx with swapControlMode :=
          if ctx.swapControlMode > 0 then ctx.swapControlMode - 1
          else (TDSWAP_CONTROL_COUNT p + UINT_RANGE - 1) % UINT_RANGE }
    else if key = KEY_B then
      if hasFlag mods GLFW_MOD_SHIFT then
        { ctx with busy_wait_ns :=
            if ctx.busy_wait_ns > 1000000 then ctx.busy_wait_ns - 1000000 else 0 }
      else
        { ctx with busy_wait_ns := (ctx.busy_wait_ns + 1000000) % UINT64_RANGE }
    else if key = KEY_V then
      if hasFlag mods GLFW_MOD_SHIFT then
        { ctx with sleep_ns :=
            if ctx.sleep_ns > 1000000 then ctx.sleep_ns - 1000000 else 0 }
      else
        { ctx with sleep_ns := (ctx.sleep_ns + 1000000) % UINT64_RANGE }
    else if key = KEY_C then
      if hasFlag mods GLFW_MOD_SHIFT then
        { ctx with flags := ctx.flags ^^^ TDCTX_GL_FLUSH }
      else
        { ctx with flags := ctx.flags ^^^ TDCTX_GL_FINISH }
    else ctx
  else ctx

/-- The function `td_ctx_resize`. -/
def td_ctx_resize (ctx : TDContext) (w h : Int) : TDContext :=
  let win := { ctx.win with size := (w, h) }
  let win :=
    if !hasFlag win.flags TDWIN_FULLSCREEN then { win with windowed_size := (w, h) }
    else win
  { ctx with win := win }

/-- The function `td_ctx_reposition`. -/
def td_ctx_reposition (ctx : TDContext) (x y : Int) : TDContext :=
  let win := { ctx.win with pos := (x, y) }
  let win :=
    if !hasFlag win.flags TDWIN_FULLSCREEN then { win with windowed_pos := (x, y) }
    else win
  { ctx with win := win }

/-! ## Basic framework -/

/-- The function `td_ctx_reset`. -/
def td_ctx_reset (ctx : TDContext) : TDContext :=
  { ctx with
    avg_lat := -1,
    avg_fps := -1,
    cur_lat := -1,
    flags := ctx.flags &&&
      bnot32 (TDCTX_DROP_WINDOW ||| TDCTX_BINDING_EXTENSIONS_LOADED ||| TDCTX_SWAP_INTERVAL_SET) }

/-- The function `td_ctx_init`, applied to the uninitialised stack object
`ctx` of `main`; fields it does not assign keep what was there. -/
def td_ctx_init (ctx : TDContext) : TDContext :=
  let ctx := { ctx with
    win := td_win_init,
    pulse := td_disp_pulse_init,
    bars := td_disp_bars_init,
    mode := TDDISP_BARS,
    swapControlMode := 0,
    swapInterval := 1,
    flags := TDCTX_FLAGS_DEFAULT }
  let ctx := td_ctx_reset ctx
  { ctx with
    cur_lat := -1,
    timer_query_obj := fun _ => 0,
    timestamp := fun _ => 0,
    busy_wait_ns := 0,
    sleep_ns := 0 }

/-- What the GL hands out in `td_ctx_gl_init`. -/
structure GLInitOracle where
  program : Nat
  loc_data : Int
  vao : Nat
  queries : Fin 10 → Nat

/-- The function `td_ctx_gl_init`. -/
def td_ctx_gl_init (o : GLInitOracle) (ctx : TDContext) : TDContext :=
  { ctx with
    bars := td_disp_bars_gl_init o.program o.loc_data o.vao ctx.bars,
    timer_query_obj := o.queries }

/-- The function `td_ctx_gl_destroy`; `glDeleteQueries` leaves the array of
names as it is. -/
def td_ctx_gl_destroy (ctx : TDContext) : TDContext :=
  { ctx with bars := td_disp_bars_destroy ctx.bars }

/-! ## The main loop -/

/-- An event delivered to one of the three callbacks registered in
`td_ctx_run` while `glfwPollEvents` runs. -/
inductive Event where
  | key (key scancode action : Int) (mods : Nat)
  | resize (w h : Int)
  | reposition (x y : Int)

/-- Run the callback an event belongs to. -/
def dispatch_event (p : Platform) (env : BindingOracle) (ctx : TDContext) : Event → TDContext
  | .key k sc a m => td_ctx_keyhandler p env ctx k sc a m
  | .resize w h => td_ctx_resize ctx w h
  | .reposition x y => td_ctx_reposition ctx x y

/-- The call `glfwPollEvents`: the pending events are delivered in order. -/
def poll_events (p : Platform) (env : BindingOracle) (ctx : TDContext) (evs : List Event) :
    TDContext :=
  evs.foldl (dispatch_event p env) ctx

/-- What the outside world supplies during one iteration of the main loop:
the events pending at `glfwPollEvents`, the answer of
`glfwWindowShouldClose`, the value `fmodf` computes in the bars pattern, the
value of `glfwGetTime` after the swap, the value `glGetQueryObjectui64v`
delivers if a query is read back, and the value `glGetInteger64v(GL_TIMESTAMP)`
delivers. -/
structure FrameInput where
  events : List Event
  should_close : Bool
  phase : Rat
  t_now : Rat
  query_result : Nat
  gl_timestamp : Nat

/-- The GL / GLFW calls of the loop body that the properties below refer to. -/
inductive GLCall where
  | viewport (w h : Int)
  | swapBuffers
  | getQueryObject (query : Nat)
  | queryCounter (query : Nat)
  | getTimestamp
  deriving DecidableEq, Repr

/-- The context together with the local variables of `td_ctx_main_loop` and
the calls made so far. -/
structure LoopState where
  ctx : TDContext
  t_start : Rat
  t_last : Rat
  t_prev : Rat
  lat_ms : Rat
  calls : List GLCall

/-- The slot `ctx->frame % TIMER_QUERY_COUNT`. -/
def cur_query_of (frame : Nat) : Fin 10 := ⟨frame % 10, Nat.mod_lt _ (by decide)⟩

/-- The loop condition `(ctx->flags & (TDCTX_RUN | TDCTX_DROP_WINDOW)) == TDCTX_RUN`. -/
def loop_cond (ctx : TDContext) : Bool :=
  (ctx.flags &&& (TDCTX_RUN ||| TDCTX_DROP_WINDOW)) == TDCTX_RUN

/-- State on entry of `td_ctx_main_loop`; `t0` is the first `glfwGetTime()`. -/
def main_loop_entry (t0 : Rat) (ctx : TDContext) : LoopState :=
  { ctx := { ctx with frame := 0, frame_int := 0 },
    t_start := t0, t_last := t0, t_prev := t0, lat_ms := 0, calls := [] }

/-- Loop body up to `glfwSwapBuffers`: events, close request, viewport,
pattern, swap. -/
def frame_present (p : Platform) (env : BindingOracle) (i : FrameInput) (s : LoopState) :
    LoopState :=
  let ctx := poll_events p env s.ctx i.events
  let ctx := if i.should_close then { ctx with flags := ctx.flags &&& bnot32 TDCTX_RUN } else ctx
  let vp := GLCall.viewport ctx.win.size.1 ctx.win.size.2
  let ctx := td_disp i.phase ctx
  { s with ctx := ctx, calls := s.calls ++ [vp, GLCall.swapBuffers] }

/-- Loop body, the block `if (ctx->frame >= TIMER_QUERY_COUNT)`: read back the
query of slot `c` and add the latency sample. -/
def frame_readback (i : FrameInput) (c : Fin 10) (s : LoopState) : LoopState :=
  if s.ctx.frame ≥ TIMER_QUERY_COUNT then
    let result := i.query_result % UINT64_RANGE
    let diff := (result + UINT64_RANGE - s.ctx.timestamp c % UINT64_RANGE) % UINT64_RANGE
    let cur_lat : Rat := (diff : Rat) / 1000000
    { s with
      ctx := { s.ctx with cur_lat := cur_lat },
      lat_ms := s.lat_ms + cur_lat,
      calls := s.calls ++ [GLCall.getQueryObject (s.ctx.timer_query_obj c)] }
  else s

/-- Loop body, `glQueryCounter` and `glGetInteger64v` on slot `c`, then the
two counter increments. -/
def frame_issue (i : FrameInput) (c : Fin 10) (s : LoopState) : LoopState :=
  { s with
    ctx := { s.ctx with
      timestamp := Function.update s.ctx.timestamp c (i.gl_timestamp % UINT64_RANGE),
      frame := (s.ctx.frame + 1) % UINT_RANGE,
      frame_int := (s.ctx.frame_int + 1) % UINT_RANGE },
    calls := s.calls ++ [GLCall.queryCounter (s.ctx.timer_query_obj c), GLCall.getTimestamp] }

/-- Loop body, from `ctx->delta=` to the end: times and the statistics of the
window once more than a second has passed since `t_last`. -/
def frame_stats (i : FrameInput) (s : LoopState) : LoopState :=
  let ctx := { s.ctx with delta := i.t_now - s.t_prev, time := i.t_now - s.t_start }
  let elapsed := i.t_now - s.t_last
  if elapsed > 1 then
    { s with
      ctx := { ctx with
        avg_fps := (ctx.frame_int : Rat) / elapsed,
        avg_lat := s.lat_ms / (ctx.frame_int : Rat),
        frame_int := 0 },
      t_prev := i.t_now,
      lat_ms := 0,
      t_last := i.t_now }
  else
    { s with ctx := ctx, t_prev := i.t_now }

/-- One iteration of the `while` loop of `td_ctx_main_loop`. -/
def main_loop_body (p : Platform) (env : BindingOracle) (i : FrameInput) (s : LoopState) :
    LoopState :=
  let c := cur_query_of s.ctx.frame
  frame_stats i (frame_issue i c (frame_readback i c (frame_present p env i s)))

/-- The `while` loop of `td_ctx_main_loop`, run on the frames the outside
world supplies: it stops when the loop condition fails, or with the state
reached when the supplied frames end. -/
def main_loop_run (p : Platform) (env : BindingOracle) : List FrameInput → LoopState → LoopState
  | [], s => s
  | i :: rest, s =>
    if loop_cond s.ctx then main_loop_run p env rest (main_loop_body p env i s) else s

/-- The function `td_ctx_main_loop`. -/
def td_ctx_main_loop (p : Platform) (env : BindingOracle) (t0 : Rat) (frames : List FrameInput)
    (ctx : TDContext) : LoopState :=
  main_loop_run p env frames (main_loop_entry t0 ctx)

/-- Number of loop iterations a state has seen: one `glfwSwapBuffers` each. -/
def frames_done (s : LoopState) : Nat := s.calls.count GLCall.swapBuffers

/-- Number of query results read back so far. -/
def samples_read (s : LoopState) : Nat :=
  (s.calls.filter fun c => match c with | GLCall.getQueryObject _ => true | _ => false).length

/-- An all-zero `TDContext`, standing for the object `ctx` of `main` before
`td_ctx_init` runs where a concrete one is needed. -/
def zero_ctx : TDContext :=
  { win := { win := none, pos := (0, 0), size := (0, 0), windowed_pos := (0, 0),
             windowed_size := (0, 0), flags := 0 },
    mode := 0, swapControlMode := 0, pulse := { speed := 0 },
    bars := { program := 0, vao := 0, loc_data := 0, data0 := 0, data1 := 0, data2 := 0 },
    swapInterval := 0, flags := 0, frame := 0, frame_int := 0, delta := 0, time := 0,
    timer_query_obj := fun _ => 0, timestamp := fun _ => 0,
    avg_lat := 0, avg_fps := 0, cur_lat := 0, busy_wait_ns := 0, sleep_ns := 0 }

/-- Whether the mechanism selected by `swapControlMode` can be used in
`td_ctx_set_swap_interval`: the binding extensions are loaded or load now, the
mode has a backend on the platform, and the extension of that backend is
present. -/
def swap_mechanism_available (p : Platform) (env : BindingOracle) (ctx : TDContext) : Bool :=
  match p with
  | .win32 =>
    (hasFlag ctx.flags TDCTX_BINDING_EXTENSIONS_LOADED || env.load_ok) &&
      (ctx.swapControlMode == TDSWAP_CONTROL_EXT && env.ext_swap_control)
  | .linux =>
    (hasFlag ctx.flags TDCTX_BINDING_EXTENSIONS_LOADED || env.load_ok) &&
      ((ctx.swapControlMode == TDSWAP_CONTROL_EXT && env.ext_swap_control) ||
       (ctx.swapControlMode == TDSWAP_CONTROL_SGI && env.sgi_swap_control))
  | .other => false

/-- Whether a console log holds a line written by `warn`. -/
def logs_warning (log : List Msg) : Bool :=
  log.any fun m => match m with
    | .warn _ => true
    | _ => false

/-- Whether an event goes to `td_ctx_resize` or `td_ctx_reposition`. -/
def is_geometry_event : Event → Bool
  | .resize _ _ => true
  | .reposition _ _ => true
  | .key _ _ _ _ => false

/-- The call `td_win_create(&ctx->win)` of `td_ctx_run`, on the context. -/
def recreate_window (o : CreateOracle) (ctx : TDContext) : TDContext :=
  { ctx with win := (td_win_create o ctx.win).1 }

/-- The fields of the context that only the main loop writes are equal in
two contexts: counters, statistics and the query ring. -/
def same_timing (a b : TDContext) : Prop :=
  b.frame = a.frame ∧ b.frame_int = a.frame_int ∧ b.cur_lat = a.cur_lat ∧
  b.avg_fps = a.avg_fps ∧ b.avg_lat = a.avg_lat ∧
  b.timestamp = a.timestamp ∧ b.timer_query_obj = a.timer_query_obj

/-- The fields compared by `same_timing`, as one tuple. -/
def timing (c : TDContext) :
    Nat × Nat × Rat × Rat × Rat × (Fin 10 → Nat) × (Fin 10 → Nat) :=
  (c.frame, c.frame_int, c.cur_lat, c.avg_fps, c.avg_lat, c.timestamp, c.timer_query_obj)

/-- A frame without events and without a close request. -/
def quiet_frame (i : FrameInput) : Bool := i.events.isEmpty && !i.should_close

/-- Number of frames, among the first `k` of a session, whose 32-bit counter
value is at least `TIMER_QUERY_COUNT`. -/
def ring_samples (k : Nat) : Nat :=
  (k / UINT_RANGE) * (UINT_RANGE - TIMER_QUERY_COUNT) + (k % UINT_RANGE - TIMER_QUERY_COUNT)

/-- A frame that brings no event and no data, at time 0. -/
def idle_frame : FrameInput :=
  { events := [], should_close := false, phase := 0, t_now := 0, query_result := 0,
    gl_timestamp := 0 }

/-- The local `lat_ms` at the point where the loop body reaches the
statistics block (after the read-back of this iteration, if any). -/
def lat_before_stats (p : Platform) (env : BindingOracle) (i : FrameInput) (s : LoopState) :
    Rat :=
  (frame_readback i (cur_query_of s.ctx.frame) (frame_present p env i s)).lat_ms

/-- What the loop maintains about the ring: the counter is the number of
frames modulo `2^32`, the read-backs are those of the frames whose counter
value reached the ring size, and nothing is accumulated before that. -/
def ring_invariant (s : LoopState) : Prop :=
  s.ctx.frame = frames_done s % UINT_RANGE ∧
  samples_read s = ring_samples (frames_done s) ∧
  (frames_done s ≤ TIMER_QUERY_COUNT → s.lat_ms = 0)

/-- One session of `td_ctx_run`: `td_ctx_reset`, `td_ctx_gl_init`, then
`td_ctx_main_loop` on the supplied frames, entered at time `t0`. -/
def td_ctx_session (p : Platform) (env : BindingOracle) (o : GLInitOracle) (t0 : Rat)
    (frames : List FrameInput) (ctx : TDContext) : LoopState :=
  td_ctx_main_loop p env t0 frames (td_ctx_gl_init o (td_ctx_reset ctx))

/-- State of the loop while the first statistics window is still open: the
averages are the sentinel, the window began at `t0`, and the window counter
counts every frame executed. -/
def first_window_state (t0 : Rat) (s : LoopState) : Prop :=
  s.ctx.avg_fps = -1 ∧ s.ctx.avg_lat = -1 ∧ s.t_last = t0 ∧
  s.ctx.frame_int = frames_done s % UINT_RANGE

/-- The first `n` frames of a run at the fixed frame time `dt`: frame `k`
ends at `t0 + (k+1) * dt`, brings no event, and the GL answers `res k` and
`ts k`. -/
def fixed_rate_frames (t0 dt : Rat) (res ts : Nat → Nat) (n : Nat) : List FrameInput :=
  (List.range n).map fun (k : Nat) =>
    { events := [], should_close := false, phase := 0, t_now := t0 + ((k : Rat) + 1) * dt,
      query_result := res k, gl_timestamp := ts k }

/-- State of the ring after the frames `done` of a session have been executed,
below the wrap of the counter: the counter is their number, the handles are
those of the session, and the slot of each of the last `TIMER_QUERY_COUNT`
frames holds the timestamp recorded at that frame. -/
def ring_state (handles : Fin 10 → Nat) (done : List FrameInput) (s : LoopState) : Prop :=
  s.ctx.frame = done.length ∧ frames_done s = done.length ∧
  s.ctx.timer_query_obj = handles ∧
  ∀ k j, done[k]? = some j → done.length ≤ k + TIMER_QUERY_COUNT →
    s.ctx.timestamp (cur_query_of k) = j.gl_timestamp % UINT64_RANGE

/-! ## The outer loop: `td_ctx_run` -/

/-- The function `td_win_destroy`. -/
def td_win_destroy (w : TDWindow) : TDWindow := { w with win := none }

/-- What the outside world supplies for one iteration of the outer loop of
`td_ctx_run`: the answers to `td_win_create`, to `td_ctx_gl_init`, the time at
which the main loop is entered, and the frames of the session. -/
structure SessionInput where
  create : CreateOracle
  gl : GLInitOracle
  t0 : Rat
  frames : List FrameInput

/-- What can be observed of the outer loop: a call of `td_win_create` with
its return code, and the entry into `td_ctx_main_loop` with the context it is
entered with. -/
inductive RunEvent where
  | win_create (rc : Int)
  | session_entry (ctx : TDContext)

/-- How a run of `td_ctx_run` on the supplied sessions ends: the function
returned; `error(3, ...)` ended the process; the frames supplied for a
session ended while its inner loop was still running; or the supplied
sessions ended while the outer loop asks for another one. -/
inductive RunOutcome where
  | returned (ctx : TDContext)
  | exited (code : Int) (ctx : TDContext)
  | in_session (s : LoopState)
  | awaiting (ctx : TDContext)

/-- The end of an outer iteration: `td_ctx_gl_destroy` and `td_win_destroy`
on the context the inner loop left. -/
def session_teardown (ctx : TDContext) : TDContext :=
  let ctx := td_ctx_gl_destroy ctx
  { ctx with win := td_win_destroy ctx.win }

/-- The function `td_ctx_run`: the observable events in order and the way the
run ends. -/
def td_ctx_run (p : Platform) (env : BindingOracle) :
    List SessionInput → TDContext → List RunEvent × RunOutcome
  | [], ctx =>
    if hasFlag ctx.flags TDCTX_RUN then ([], RunOutcome.awaiting ctx)
    else ([], RunOutcome.returned ctx)
  | si :: rest, ctx =>
    if hasFlag ctx.flags TDCTX_RUN then
      let r := td_win_create si.create ctx.win
      if ctx.win.win.isNone && r.2 != 0 then
        ([RunEvent.win_create r.2], RunOutcome.exited 3 { ctx with win := r.1 })
      else
        let made := if ctx.win.win.isNone then [RunEvent.win_create r.2] else []
        let ctx := if ctx.win.win.isNone then { ctx with win := r.1 } else ctx
        let entry := td_ctx_gl_init si.gl (td_ctx_reset ctx)
        let s := td_ctx_main_loop p env si.t0 si.frames entry
        if loop_cond s.ctx then
          (made ++ [RunEvent.session_entry entry], RunOutcome.in_session s)
        else
          let next := td_ctx_run p env rest (session_teardown s.ctx)
          (made ++ [RunEvent.session_entry entry] ++ next.1, next.2)
    else ([], RunOutcome.returned ctx)

/-- Number of sessions a run has entered. -/
def sessions_started (evs : List RunEvent) : Nat :=
  (evs.filter fun e => match e with | .session_entry _ => true | _ => false).length

/-- Number of calls of `td_win_create` in a run. -/
def windows_requested (evs : List RunEvent) : Nat :=
  (evs.filter fun e => match e with | .win_create _ => true | _ => false).length

/-- The exit code of a run that `error` ended. -/
def exit_code : RunOutcome → Option Int
  | .exited code _ => some code
  | _ => none

/-- A frame in which ENTER is pressed (a window drop is requested). -/
def drop_frame : FrameInput :=
  { events := [Event.key GLFW_KEY_ENTER 0 GLFW_PRESS 0], should_close := false, phase := 0,
    t_now := 0, query_result := 0, gl_timestamp := 0 }

/-- A session in which the window is created (handle 1) and the first frame
brings an ENTER press. -/
def drop_session : SessionInput :=
  { create := { monitor := none, created := some 1, glad_ok := true },
    gl := { program := 1, loc_data := 0, vao := 1, queries := fun _ => 7 },
    t0 := 0, frames := [drop_frame, idle_frame] }

/-- A session for which `glfwCreateWindow` returns `NULL`. -/
def failing_session : SessionInput :=
  { create := { monitor := none, created := none, glad_ok := true },
    gl := { program := 1, loc_data := 0, vao := 1, queries := fun _ => 7 },
    t0 := 0, frames := [idle_frame] }

/-- The context with which the main loop of `drop_session` is entered when
the program starts from `td_ctx_init`. -/
def first_entry : TDContext :=
  td_ctx_gl_init drop_session.gl
    (td_ctx_reset { td_ctx_init zero_ctx with
      win := (td_win_create drop_session.create (td_ctx_init zero_ctx).win).1 })

/-- The latency sample of frame `k` of a session, from what the outside
world supplied: for `k` at least the ring size, the result delivered at frame
`k` minus the timestamp delivered at frame `k - TIMER_QUERY_COUNT`, on 64
bits, in milliseconds; no sample (0) for the earlier frames. -/
def latency_sample (frames : List FrameInput) (k : Nat) : Rat :=
  match frames[k]?, frames[k - TIMER_QUERY_COUNT]? with
  | some a, some b =>
    if TIMER_QUERY_COUNT ≤ k then
      (((a.query_result % UINT64_RANGE + UINT64_RANGE - b.gl_timestamp % UINT64_RANGE)
        % UINT64_RANGE : Nat) : Rat) / 1000000
    else 0
  | _, _ => 0

/-- The sum of the latency samples of the first `n` frames of a session. -/
def window_latency (frames : List FrameInput) (n : Nat) : Rat :=
  ((List.range n).map (latency_sample frames)).sum

/-- State of the loop after the frames `done`, all executed inside the first
statistics window: the ring state, the open first window, and the latency sum
is the sum of the samples of these frames. -/
def window_state (t0 : Rat) (handles : Fin 10 → Nat) (done : List FrameInput)
    (s : LoopState) : Prop :=
  ring_state handles done s ∧ first_window_state t0 s ∧
  s.lat_ms = window_latency done done.length

/-- A quiet frame that ends 2 s after time 0. -/
def late_frame : FrameInput :=
  { events := [], should_close := false, phase := 0, t_now := 2, query_result := 0,
    gl_timestamp := 0 }

/-! ## Pattern-mode cycling -/

/-- C2. For every display mode `m` in `[0, TDDISP_MODE_COUNT)`, pressing
RIGHT or SPACE changes the context only in `mode`, to `(m+1) mod 4`, and
pressing LEFT or BACKSPACE changes it only in `mode`, to `(m+3) mod 4`; the
result is in range, the two directions undo each other, and four presses of
"next" give back the context one started from. -/
theorem C2_mode_cycle (p : Platform) (env : BindingOracle) (ctx : TDContext)
    (sc : Int) (mods : Nat) (h : ctx.mode < TDDISP_MODE_COUNT) :
    let next := fun c => td_ctx_keyhandler p env c GLFW_KEY_RIGHT sc GLFW_PRESS mods
    let prev := fun c => td_ctx_keyhandler p env c GLFW_KEY_LEFT sc GLFW_PRESS mods
    next ctx = { ctx with mode := (ctx.mode + 1) % 4 } ∧
    td_ctx_keyhandler p env ctx GLFW_KEY_SPACE sc GLFW_PRESS mods = next ctx ∧
    prev ctx = { ctx with mode := (ctx.mode + 3) % 4 } ∧
    td_ctx_keyhandler p env ctx GLFW_KEY_BACKSPACE sc GLFW_PRESS mods = prev ctx ∧
    (next ctx).mode < TDDISP_MODE_COUNT ∧ (prev ctx).mode < TDDISP_MODE_COUNT ∧
    prev (next ctx) = ctx ∧ next (prev ctx) = ctx ∧
    next (next (next (next ctx))) = ctx := by
  obtain ⟨win, mode, scm, pulse, bars, si, flags, frame, fi, delta, time, tq, ts, al, af, cl,
    bw, sl⟩ := ctx
  simp only [TDDISP_MODE_COUNT] at h
  interval_cases mode <;>
    simp [td_ctx_keyhandler, GLFW_KEY_RIGHT, GLFW_KEY_LEFT, GLFW_KEY_SPACE, GLFW_KEY_BACKSPACE,
      GLFW_KEY_ESCAPE, GLFW_PRESS, TDDISP_MODE_COUNT, UINT_RANGE]

/-- C2, at the bars pattern of a freshly initialised context: "next" wraps
from bars (3) to none (0). -/
theorem C2_mode_cycle_witness :
    (td_ctx_init zero_ctx).mode < TDDISP_MODE_COUNT ∧
    (td_ctx_keyhandler .linux ⟨true, true, true, true⟩ (td_ctx_init zero_ctx) GLFW_KEY_RIGHT 0
      GLFW_PRESS 0).mode = 0 :=
  ⟨by decide,
   (congrArg TDContext.mode
    (C2_mode_cycle .linux ⟨true, true, true, true⟩ (td_ctx_init zero_ctx) 0 0 (by decide)).1).trans
    (by decide)⟩

/-! ## Swap-interval keys -/

/-- Applying the swap interval changes no field of the context but `flags`. -/
theorem set_swap_interval_fields (p : Platform) (env : BindingOracle) (ctx : TDContext) :
    (td_ctx_set_swap_interval p env ctx).1 =
      { ctx with flags := (td_ctx_set_swap_interval p env ctx).1.flags } := by
  unfold td_ctx_set_swap_interval
  cases p <;> simp only <;> repeat (first | rfl | split)

/-- The increase keys store the wrapped successor of the interval. -/
theorem key_increase_interval (p : Platform) (env : BindingOracle) (ctx : TDContext)
    (sc : Int) (mods : Nat) :
    (td_ctx_keyhandler p env ctx KEY_EQUAL sc GLFW_PRESS mods).swapInterval
        = wrap_int32 (ctx.swapInterval + 1) ∧
    (td_ctx_keyhandler p env ctx GLFW_KEY_KP_ADD sc GLFW_PRESS mods).swapInterval
        = wrap_int32 (ctx.swapInterval + 1) := by
  constructor <;>
  · simp only [td_ctx_keyhandler, GLFW_KEY_RIGHT, GLFW_KEY_LEFT, GLFW_KEY_SPACE,
      GLFW_KEY_BACKSPACE, GLFW_KEY_ESCAPE, GLFW_PRESS, GLFW_KEY_ENTER, KEY_W, GLFW_KEY_UP,
      GLFW_KEY_DOWN, GLFW_KEY_HOME, GLFW_KEY_KP_MULTIPLY, GLFW_KEY_KP_DIVIDE, KEY_F, KEY_S,
      KEY_EQUAL, GLFW_KEY_KP_ADD]
    norm_num
    rw [set_swap_interval_fields]

/-- The decrease keys store the wrapped predecessor of the interval. -/
theorem key_decrease_interval (p : Platform) (env : BindingOracle) (ctx : TDContext)
    (sc : Int) (mods : Nat) :
    (td_ctx_keyhandler p env ctx KEY_MINUS sc GLFW_PRESS mods).swapInterval
        = wrap_int32 (ctx.swapInterval - 1) ∧
    (td_ctx_keyhandler p env ctx GLFW_KEY_KP_SUBTRACT sc GLFW_PRESS mods).swapInterval
        = wrap_int32 (ctx.swapInterval - 1) := by
  constructor <;>
  · simp only [td_ctx_keyhandler, GLFW_KEY_RIGHT, GLFW_KEY_LEFT, GLFW_KEY_SPACE,
      GLFW_KEY_BACKSPACE, GLFW_KEY_ESCAPE, GLFW_PRESS, GLFW_KEY_ENTER, KEY_W, GLFW_KEY_UP,
      GLFW_KEY_DOWN, GLFW_KEY_HOME, GLFW_KEY_KP_MULTIPLY, GLFW_KEY_KP_DIVIDE, KEY_F, KEY_S,
      KEY_EQUAL, GLFW_KEY_KP_ADD, KEY_MINUS, GLFW_KEY_KP_SUBTRACT]
    norm_num
    rw [set_swap_interval_fields]

/-- The unshifted toggle key stores 0 for a non-zero interval and 1 for 0. -/
theorem key_toggle_interval (p : Platform) (env : BindingOracle) (ctx : TDContext)
    (sc : Int) (mods : Nat) (hm : hasFlag mods GLFW_MOD_SHIFT = false) :
    (td_ctx_keyhandler p env ctx KEY_S sc GLFW_PRESS mods).swapInterval
        = if ctx.swapInterval ≠ 0 then 0 else 1 := by
  simp only [td_ctx_keyhandler, GLFW_KEY_RIGHT, GLFW_KEY_LEFT, GLFW_KEY_SPACE,
      GLFW_KEY_BACKSPACE, GLFW_KEY_ESCAPE, GLFW_PRESS, GLFW_KEY_ENTER, KEY_W, GLFW_KEY_UP,
      GLFW_KEY_DOWN, GLFW_KEY_HOME, GLFW_KEY_KP_MULTIPLY, GLFW_KEY_KP_DIVIDE, KEY_F, KEY_S, hm]
  norm_num
  rw [set_swap_interval_fields]

/-- C3, as stated, fails at the largest `int`: with the interval at
2147483647 the increase key does not store 2147483648 but wraps to
-2147483648. -/
theorem C3_increase_at_int_max :
    (td_ctx_keyhandler .linux ⟨true, true, true, true⟩
      { td_ctx_init zero_ctx with swapInterval := 2147483647 }
      KEY_EQUAL 0 GLFW_PRESS 0).swapInterval = -2147483648 ∧
    (td_ctx_keyhandler .linux ⟨true, true, true, true⟩
      { td_ctx_init zero_ctx with swapInterval := 2147483647 }
      KEY_EQUAL 0 GLFW_PRESS 0).swapInterval ≠ 2147483647 + 1 := by
  rw [(key_increase_interval _ _ _ _ _).1]
  decide

/-- C3, amended. For every interval `n` of the `int` range: the increase
keys store `n+1` when `n < INT_MAX`, the decrease keys store `n-1` when
`INT_MIN < n`, and the unshifted toggle key stores 0 when `n ≠ 0` and 1 when
`n = 0`.  From the initial interval 1, three increase presses give 4 and a
toggle press after them gives 0. -/
theorem C3_swap_interval_keys (p : Platform) (env : BindingOracle) (ctx : TDContext)
    (sc : Int) (mods : Nat)
    (hlo : INT_MIN ≤ ctx.swapInterval) (hhi : ctx.swapInterval ≤ INT_MAX) :
    (ctx.swapInterval < INT_MAX →
      (td_ctx_keyhandler p env ctx KEY_EQUAL sc GLFW_PRESS mods).swapInterval
        = ctx.swapInterval + 1 ∧
      (td_ctx_keyhandler p env ctx GLFW_KEY_KP_ADD sc GLFW_PRESS mods).swapInterval
        = ctx.swapInterval + 1) ∧
    (INT_MIN < ctx.swapInterval →
      (td_ctx_keyhandler p env ctx KEY_MINUS sc GLFW_PRESS mods).swapInterval
        = ctx.swapInterval - 1 ∧
      (td_ctx_keyhandler p env ctx GLFW_KEY_KP_SUBTRACT sc GLFW_PRESS mods).swapInterval
        = ctx.swapInterval - 1) ∧
    (hasFlag mods GLFW_MOD_SHIFT = false →
      (ctx.swapInterval ≠ 0 →
        (td_ctx_keyhandler p env ctx KEY_S sc GLFW_PRESS mods).swapInterval = 0) ∧
      (ctx.swapInterval = 0 →
        (td_ctx_keyhandler p env ctx KEY_S sc GLFW_PRESS mods).swapInterval = 1)) ∧
    (td_ctx_init ctx).swapInterval = 1 ∧
    (let inc := fun c => td_ctx_keyhandler p env c KEY_EQUAL sc GLFW_PRESS mods
     (inc (inc (inc (td_ctx_init ctx)))).swapInterval = 4 ∧
     (hasFlag mods GLFW_MOD_SHIFT = false →
       (td_ctx_keyhandler p env (inc (inc (inc (td_ctx_init ctx)))) KEY_S sc GLFW_PRESS
         mods).swapInterval = 0)) := by
  simp only [INT_MIN, INT_MAX] at hlo hhi ⊢
  have hinit : (td_ctx_init ctx).swapInterval = 1 := rfl
  refine ⟨fun h => ?_, fun h => ?_, fun hm => ⟨fun h => ?_, fun h => ?_⟩, hinit, ?_, fun hm => ?_⟩
  · rw [(key_increase_interval _ _ _ _ _).1, (key_increase_interval _ _ _ _ _).2]
    simp only [wrap_int32]; omega
  · rw [(key_decrease_interval _ _ _ _ _).1, (key_decrease_interval _ _ _ _ _).2]
    simp only [wrap_int32]; omega
  · rw [key_toggle_interval _ _ _ _ _ hm]; simp [h]
  · rw [key_toggle_interval _ _ _ _ _ hm]; simp [h]
  · simp only [(key_increase_interval _ _ _ _ _).1, hinit]; decide
  · rw [key_toggle_interval _ _ _ _ _ hm]
    simp only [(key_increase_interval _ _ _ _ _).1, hinit]; decide

/-- C3 amended, at a freshly initialised context on Linux: one increase
press takes the interval from 1 to 2. -/
theorem C3_swap_interval_keys_witness :
    (td_ctx_keyhandler .linux ⟨true, true, true, true⟩ (td_ctx_init zero_ctx)
      KEY_EQUAL 0 GLFW_PRESS 0).swapInterval = 2 :=
  ((C3_swap_interval_keys .linux ⟨true, true, true, true⟩ (td_ctx_init zero_ctx) 0 0
    (by decide) (by decide)).1 (by decide)).1

/-! ## Fullscreen toggle -/

/-- Testing a single-bit mask is testing that bit. -/
theorem hasFlag_two_pow (x k : Nat) : hasFlag x (2 ^ k) = x.testBit k := by
  unfold hasFlag
  rw [Nat.and_two_pow]
  cases x.testBit k <;> simp

theorem hasFlag_1 (x : Nat) : hasFlag x 1 = x.testBit 0 := hasFlag_two_pow x 0

theorem hasFlag_2 (x : Nat) : hasFlag x 2 = x.testBit 1 := hasFlag_two_pow x 1

theorem hasFlag_4 (x : Nat) : hasFlag x 4 = x.testBit 2 := hasFlag_two_pow x 2

theorem hasFlag_8 (x : Nat) : hasFlag x 8 = x.testBit 3 := hasFlag_two_pow x 3

/-- C4. `td_ctx_switch_fullscreen` with `fs_flags` 0 or
`TDWIN_FULLSCREEN_MODE_SWITCH`, from any window flags: FULLSCREEN is flipped;
afterwards DECORATED is set exactly when FULLSCREEN is clear; MODE_SWITCH is
set afterwards exactly when fullscreen was entered with the modifier, hence
never while not fullscreen; `TDCTX_DROP_WINDOW` is set and every other bit of
the context flags, and every field other than the two flag words, is as
before.  The key `F` calls it with the modifier taken from Shift. -/
theorem C4_switch_fullscreen (ctx : TDContext) (fs : Nat)
    (hfs : fs = 0 ∨ fs = TDWIN_FULLSCREEN_MODE_SWITCH) :
    let c := td_ctx_switch_fullscreen ctx fs
    hasFlag c.win.flags TDWIN_FULLSCREEN = !hasFlag ctx.win.flags TDWIN_FULLSCREEN ∧
    hasFlag c.win.flags TDWIN_DECORATED = !hasFlag c.win.flags TDWIN_FULLSCREEN ∧
    hasFlag c.win.flags TDWIN_FULLSCREEN_MODE_SWITCH
      = (!hasFlag ctx.win.flags TDWIN_FULLSCREEN && decide (fs = TDWIN_FULLSCREEN_MODE_SWITCH)) ∧
    (hasFlag c.win.flags TDWIN_FULLSCREEN = false →
      hasFlag c.win.flags TDWIN_FULLSCREEN_MODE_SWITCH = false) ∧
    hasFlag c.flags TDCTX_DROP_WINDOW = true ∧
    (∀ k, k ≠ 1 → c.flags.testBit k = ctx.flags.testBit k) ∧
    c = { ctx with win := { ctx.win with flags := c.win.flags }, flags := c.flags } ∧
    (∀ p env sc mods,
      td_ctx_keyhandler p env ctx KEY_F sc GLFW_PRESS mods
        = td_ctx_switch_fullscreen ctx
            (if hasFlag mods GLFW_MOD_SHIFT then TDWIN_FULLSCREEN_MODE_SWITCH else 0)) := by
  have key : ∀ p env sc mods,
      td_ctx_keyhandler p env ctx KEY_F sc GLFW_PRESS mods
        = td_ctx_switch_fullscreen ctx
            (if hasFlag mods GLFW_MOD_SHIFT then TDWIN_FULLSCREEN_MODE_SWITCH else 0) := by
    intro p env sc mods
    simp only [td_ctx_keyhandler, GLFW_KEY_RIGHT, GLFW_KEY_LEFT, GLFW_KEY_SPACE,
      GLFW_KEY_BACKSPACE, GLFW_KEY_ESCAPE, GLFW_PRESS, GLFW_KEY_ENTER, KEY_W, GLFW_KEY_UP,
      GLFW_KEY_DOWN, GLFW_KEY_HOME, GLFW_KEY_KP_MULTIPLY, GLFW_KEY_KP_DIVIDE, KEY_F]
    norm_num
  have drop : ∀ k, k ≠ 1 → (ctx.flags ||| TDCTX_DROP_WINDOW).testBit k = ctx.flags.testBit k := by
    intro k hk
    have h2 : (2 : Nat) = 2 ^ 1 := rfl
    rw [Nat.testBit_or, TDCTX_DROP_WINDOW, h2, Nat.testBit_two_pow]
    simp [Ne.symm hk]
  simp only [td_ctx_switch_fullscreen, TDWIN_FULLSCREEN, TDWIN_FULLSCREEN_MODE_SWITCH,
    TDWIN_DECORATED, TDCTX_DROP_WINDOW, hasFlag_1, hasFlag_2, hasFlag_4] at hfs key drop ⊢
  refine ⟨?_, ?_, ?_, ?_, ?_, drop, ?_, key⟩
  all_goals
    rcases hfs with rfl | rfl <;> cases hb : ctx.win.flags.testBit 0 <;>
      simp +decide [Nat.testBit_or, Nat.testBit_and, bnot32, UINT_MAX, hb]

/-- C4, entering fullscreen with the modifier from the initial window state:
FULLSCREEN becomes the negation of its former value. -/
theorem C4_switch_fullscreen_witness :
    hasFlag (td_ctx_switch_fullscreen (td_ctx_init zero_ctx)
        TDWIN_FULLSCREEN_MODE_SWITCH).win.flags TDWIN_FULLSCREEN
      = !hasFlag (td_ctx_init zero_ctx).win.flags TDWIN_FULLSCREEN :=
  (C4_switch_fullscreen (td_ctx_init zero_ctx) TDWIN_FULLSCREEN_MODE_SWITCH (Or.inr rfl)).1

/-! ## Busy-wait and sleep durations -/

/-- What the key `B` does to the context, with and without Shift. -/
theorem key_busy_wait (p : Platform) (env : BindingOracle) (ctx : TDContext)
    (sc : Int) (mods : Nat) :
    td_ctx_keyhandler p env ctx KEY_B sc GLFW_PRESS mods =
      if hasFlag mods GLFW_MOD_SHIFT then
        { ctx with busy_wait_ns :=
            if ctx.busy_wait_ns > 1000000 then ctx.busy_wait_ns - 1000000 else 0 }
      else
        { ctx with busy_wait_ns := (ctx.busy_wait_ns + 1000000) % UINT64_RANGE } := by
  simp only [td_ctx_keyhandler, GLFW_KEY_RIGHT, GLFW_KEY_LEFT, GLFW_KEY_SPACE,
    GLFW_KEY_BACKSPACE, GLFW_KEY_ESCAPE, GLFW_PRESS, GLFW_KEY_ENTER, KEY_W, GLFW_KEY_UP,
    GLFW_KEY_DOWN, GLFW_KEY_HOME, GLFW_KEY_KP_MULTIPLY, GLFW_KEY_KP_DIVIDE, KEY_F, KEY_S,
    KEY_EQUAL, GLFW_KEY_KP_ADD, KEY_MINUS, GLFW_KEY_KP_SUBTRACT, GLFW_KEY_PAGE_UP,
    GLFW_KEY_PAGE_DOWN, KEY_B]
  simp only [Int.reduceEq, or_self, or_false, false_or, if_true, if_false, reduceIte]

/-- What the key `V` does to the context, with and without Shift. -/
theorem key_sleep (p : Platform) (env : BindingOracle) (ctx : TDContext)
    (sc : Int) (mods : Nat) :
    td_ctx_keyhandler p env ctx KEY_V sc GLFW_PRESS mods =
      if hasFlag mods GLFW_MOD_SHIFT then
        { ctx with sleep_ns :=
            if ctx.sleep_ns > 1000000 then ctx.sleep_ns - 1000000 else 0 }
      else
        { ctx with sleep_ns := (ctx.sleep_ns + 1000000) % UINT64_RANGE } := by
  simp only [td_ctx_keyhandler, GLFW_KEY_RIGHT, GLFW_KEY_LEFT, GLFW_KEY_SPACE,
    GLFW_KEY_BACKSPACE, GLFW_KEY_ESCAPE, GLFW_PRESS, GLFW_KEY_ENTER, KEY_W, GLFW_KEY_UP,
    GLFW_KEY_DOWN, GLFW_KEY_HOME, GLFW_KEY_KP_MULTIPLY, GLFW_KEY_KP_DIVIDE, KEY_F, KEY_S,
    KEY_EQUAL, GLFW_KEY_KP_ADD, KEY_MINUS, GLFW_KEY_KP_SUBTRACT, GLFW_KEY_PAGE_UP,
    GLFW_KEY_PAGE_DOWN, KEY_B, KEY_V]
  simp only [Int.reduceEq, or_self, or_false, false_or, if_true, if_false, reduceIte]

/-- C5, as stated, fails at the top of the 64-bit range: from the duration
`2^64 - 1` the increase key `B` does not give `d + 1000000` but wraps round
to 999999. -/
theorem C5_increase_at_uint64_max :
    (td_ctx_keyhandler .linux ⟨true, true, true, true⟩
      { td_ctx_init zero_ctx with busy_wait_ns := 18446744073709551615 }
      KEY_B 0 GLFW_PRESS 0).busy_wait_ns = 999999 ∧
    (td_ctx_keyhandler .linux ⟨true, true, true, true⟩
      { td_ctx_init zero_ctx with busy_wait_ns := 18446744073709551615 }
      KEY_B 0 GLFW_PRESS 0).busy_wait_ns ≠ 18446744073709551615 + 1000000 := by
  rw [key_busy_wait]
  decide

/-- C5, amended. For every 64-bit duration `d`: the decrease key (Shift+B,
Shift+V) gives `max(d - 1000000, 0)`, so 0 for every `d < 1000000`, and never
a value above `d`; the increase key (B, V) gives `(d + 1000000) mod 2^64`,
which is `d + 1000000` whenever that is below `2^64`; the B keys change no
field but `busy_wait_ns` and the V keys no field but `sleep_ns`. -/
theorem C5_wait_keys (p : Platform) (env : BindingOracle) (ctx : TDContext)
    (sc : Int) (mods : Nat)
    (hb : ctx.busy_wait_ns < UINT64_RANGE) (hs : ctx.sleep_ns < UINT64_RANGE) :
    let kb := td_ctx_keyhandler p env ctx KEY_B sc GLFW_PRESS mods
    let kv := td_ctx_keyhandler p env ctx KEY_V sc GLFW_PRESS mods
    kb = { ctx with busy_wait_ns := kb.busy_wait_ns } ∧
    kv = { ctx with sleep_ns := kv.sleep_ns } ∧
    (hasFlag mods GLFW_MOD_SHIFT = true →
      (kb.busy_wait_ns : Int) = max ((ctx.busy_wait_ns : Int) - 1000000) 0 ∧
      (kv.sleep_ns : Int) = max ((ctx.sleep_ns : Int) - 1000000) 0 ∧
      kb.busy_wait_ns ≤ ctx.busy_wait_ns ∧ kv.sleep_ns ≤ ctx.sleep_ns ∧
      (ctx.busy_wait_ns < 1000000 → kb.busy_wait_ns = 0) ∧
      (ctx.sleep_ns < 1000000 → kv.sleep_ns = 0)) ∧
    (hasFlag mods GLFW_MOD_SHIFT = false →
      kb.busy_wait_ns = (ctx.busy_wait_ns + 1000000) % UINT64_RANGE ∧
      kv.sleep_ns = (ctx.sleep_ns + 1000000) % UINT64_RANGE ∧
      (ctx.busy_wait_ns + 1000000 < UINT64_RANGE →
        kb.busy_wait_ns = ctx.busy_wait_ns + 1000000) ∧
      (ctx.sleep_ns + 1000000 < UINT64_RANGE → kv.sleep_ns = ctx.sleep_ns + 1000000)) := by
  simp only [key_busy_wait, key_sleep, UINT64_RANGE] at hb hs ⊢
  refine ⟨?_, ?_, fun hm => ?_, fun hm => ?_⟩
  · split <;> rfl
  · split <;> rfl
  · simp only [hm, if_true]
    refine ⟨?_, ?_, ?_, ?_, ?_, ?_⟩ <;> split <;> omega
  · simp only [hm, Bool.false_eq_true, if_false]
    refine ⟨trivial, trivial, fun h => ?_, fun h => ?_⟩ <;> omega

/-- C5 amended, at a fresh context: B takes the busy-wait from 0 to 1 ms. -/
theorem C5_wait_keys_witness :
    (td_ctx_keyhandler .linux ⟨true, true, true, true⟩ (td_ctx_init zero_ctx)
      KEY_B 0 GLFW_PRESS 0).busy_wait_ns = 1000000 :=
  ((C5_wait_keys .linux ⟨true, true, true, true⟩ (td_ctx_init zero_ctx) 0 0
    (by decide) (by decide)).2.2.2 (by decide)).2.2.1 (by decide)

/-! ## Swap-control-mode cycling -/

/-- What the keys PAGE_UP and PAGE_DOWN do to the context. -/
theorem key_page (p : Platform) (env : BindingOracle) (ctx : TDContext)
    (sc : Int) (mods : Nat) :
    td_ctx_keyhandler p env ctx GLFW_KEY_PAGE_UP sc GLFW_PRESS mods =
      { ctx with swapControlMode :=
          if (ctx.swapControlMode + 1) % UINT_RANGE ≥ TDSWAP_CONTROL_COUNT p
          then (ctx.swapControlMode + 1) % UINT_RANGE - TDSWAP_CONTROL_COUNT p
          else (ctx.swapControlMode + 1) % UINT_RANGE } ∧
    td_ctx_keyhandler p env ctx GLFW_KEY_PAGE_DOWN sc GLFW_PRESS mods =
      { ctx with swapControlMode :=
          if ctx.swapControlMode > 0 then ctx.swapControlMode - 1
          else (TDSWAP_CONTROL_COUNT p + UINT_RANGE - 1) % UINT_RANGE } := by
  constructor <;>
  · simp only [td_ctx_keyhandler, GLFW_KEY_RIGHT, GLFW_KEY_LEFT, GLFW_KEY_SPACE,
      GLFW_KEY_BACKSPACE, GLFW_KEY_ESCAPE, GLFW_PRESS, GLFW_KEY_ENTER, KEY_W, GLFW_KEY_UP,
      GLFW_KEY_DOWN, GLFW_KEY_HOME, GLFW_KEY_KP_MULTIPLY, GLFW_KEY_KP_DIVIDE, KEY_F, KEY_S,
      KEY_EQUAL, GLFW_KEY_KP_ADD, KEY_MINUS, GLFW_KEY_KP_SUBTRACT, GLFW_KEY_PAGE_UP,
      GLFW_KEY_PAGE_DOWN]
    simp only [Int.reduceEq, or_self, or_false, false_or, if_true, if_false, reduceIte]

/-- C9. On a platform with `C = TDSWAP_CONTROL_COUNT ≥ 1` modes and for every
mode `m < C`: PAGE_UP changes the context only in `swapControlMode`, to
`(m+1) mod C`, and PAGE_DOWN only in `swapControlMode`, to `(m+C-1) mod C`;
the result is below `C`, the two keys undo each other, `C` presses of PAGE_UP
give back the context, and `swapInterval` and the context flags (so
`TDCTX_SWAP_INTERVAL_SET`) are as before. -/
theorem C9_swap_control_cycle (p : Platform) (env : BindingOracle) (ctx : TDContext)
    (sc : Int) (mods : Nat)
    (hC : 1 ≤ TDSWAP_CONTROL_COUNT p) (hm : ctx.swapControlMode < TDSWAP_CONTROL_COUNT p) :
    let up := fun c => td_ctx_keyhandler p env c GLFW_KEY_PAGE_UP sc GLFW_PRESS mods
    let down := fun c => td_ctx_keyhandler p env c GLFW_KEY_PAGE_DOWN sc GLFW_PRESS mods
    up ctx = { ctx with swapControlMode := (ctx.swapControlMode + 1) % TDSWAP_CONTROL_COUNT p } ∧
    down ctx = { ctx with swapControlMode :=
      (ctx.swapControlMode + TDSWAP_CONTROL_COUNT p - 1) % TDSWAP_CONTROL_COUNT p } ∧
    (up ctx).swapControlMode < TDSWAP_CONTROL_COUNT p ∧
    (down ctx).swapControlMode < TDSWAP_CONTROL_COUNT p ∧
    down (up ctx) = ctx ∧ up (down ctx) = ctx ∧
    up^[TDSWAP_CONTROL_COUNT p] ctx = ctx ∧
    (up ctx).swapInterval = ctx.swapInterval ∧ (down ctx).swapInterval = ctx.swapInterval ∧
    (up ctx).flags = ctx.flags ∧ (down ctx).flags = ctx.flags := by
  obtain ⟨win, mode, scm, pulse, bars, si, flags, frame, fi, delta, time, tq, ts, al, af, cl,
    bw, sl⟩ := ctx
  cases p <;> simp only [TDSWAP_CONTROL_COUNT] at hC hm
  · interval_cases scm
    simp [key_page, TDSWAP_CONTROL_COUNT, UINT_RANGE]
  · interval_cases scm <;> simp [key_page, TDSWAP_CONTROL_COUNT, UINT_RANGE]
  · omega

/-- C9 on Linux from the initial mode 0: PAGE_DOWN wraps to mode 2. -/
theorem C9_swap_control_cycle_witness :
    (td_ctx_keyhandler .linux ⟨true, true, true, true⟩ (td_ctx_init zero_ctx)
      GLFW_KEY_PAGE_DOWN 0 GLFW_PRESS 0).swapControlMode = 2 :=
  (congrArg TDContext.swapControlMode
    (C9_swap_control_cycle .linux ⟨true, true, true, true⟩ (td_ctx_init zero_ctx) 0 0
      (by decide) (by decide)).2.1).trans (by decide)

/-! ## Applying the swap interval -/

/-- C8, as stated, fails when the flag is already set: on Linux, after the
interval was applied through EXT and the mode was cycled twice to MESA (no
backend), the next apply warns but `TDCTX_SWAP_INTERVAL_SET` is still true
afterwards. -/
theorem C8_flag_stays_set :
    let env : BindingOracle := ⟨true, true, true, true⟩
    let c1 := td_ctx_keyhandler .linux env (td_ctx_init zero_ctx) KEY_S 0 GLFW_PRESS GLFW_MOD_SHIFT
    let c2 := td_ctx_keyhandler .linux env c1 GLFW_KEY_PAGE_UP 0 GLFW_PRESS 0
    let c3 := td_ctx_keyhandler .linux env c2 GLFW_KEY_PAGE_UP 0 GLFW_PRESS 0
    c3.swapControlMode = TDSWAP_CONTROL_MESA ∧
    swap_mechanism_available .linux env c3 = false ∧
    logs_warning (td_ctx_set_swap_interval .linux env c3).2 = true ∧
    hasFlag (td_ctx_set_swap_interval .linux env c3).1.flags TDCTX_SWAP_INTERVAL_SET = true := by
  decide

/-- The applied flag after `td_ctx_set_swap_interval` is its former value
or-ed with the availability of the mechanism, and an unavailable mechanism
makes the function warn. -/
theorem set_swap_interval_flag (p : Platform) (env : BindingOracle) (ctx : TDContext) :
    hasFlag (td_ctx_set_swap_interval p env ctx).1.flags TDCTX_SWAP_INTERVAL_SET
      = (swap_mechanism_available p env ctx || hasFlag ctx.flags TDCTX_SWAP_INTERVAL_SET) ∧
    (swap_mechanism_available p env ctx || logs_warning (td_ctx_set_swap_interval p env ctx).2)
      = true := by
  have t82 : Nat.testBit 8 2 = false := by decide
  have t42 : Nat.testBit 4 2 = true := by decide
  cases p <;>
    simp only [swap_mechanism_available, td_ctx_set_swap_interval, TDSWAP_CONTROL_EXT,
      TDSWAP_CONTROL_SGI, TDCTX_BINDING_EXTENSIONS_LOADED, TDCTX_SWAP_INTERVAL_SET,
      hasFlag_4, hasFlag_8]
  · cases hl : ctx.flags.testBit 3 <;> cases ho : env.load_ok <;>
      cases he : env.ext_swap_control <;>
      by_cases h0 : ctx.swapControlMode = 0 <;>
      simp +decide [h0, t82, t42, logs_warning, Nat.testBit_or]
  · cases hl : ctx.flags.testBit 3 <;> cases ho : env.load_ok <;>
      cases he : env.ext_swap_control <;> cases hs : env.sgi_swap_control <;>
      cases hd : env.drawable <;>
      by_cases h0 : ctx.swapControlMode = 0 <;> by_cases h1 : ctx.swapControlMode = 1 <;>
      simp +decide [h0, h1, t82, t42, logs_warning, Nat.testBit_or]
  · simp +decide [logs_warning]

/-- C8, amended. For every platform, binding answer and context: when the
selected mechanism is unavailable, `td_ctx_set_swap_interval` writes a
warning, returns, and leaves `TDCTX_SWAP_INTERVAL_SET` as it was (false if it
was false, still true if it was true); when the mechanism is available the
flag is set afterwards.  No field other than `flags` changes either way. -/
theorem C8_set_swap_interval (p : Platform) (env : BindingOracle) (ctx : TDContext) :
    let r := td_ctx_set_swap_interval p env ctx
    (swap_mechanism_available p env ctx = false →
      logs_warning r.2 = true ∧
      hasFlag r.1.flags TDCTX_SWAP_INTERVAL_SET = hasFlag ctx.flags TDCTX_SWAP_INTERVAL_SET) ∧
    (swap_mechanism_available p env ctx = true →
      hasFlag r.1.flags TDCTX_SWAP_INTERVAL_SET = true) ∧
    r.1 = { ctx with flags := r.1.flags } := by
  have hc := set_swap_interval_flag p env ctx
  refine ⟨fun h => ?_, fun h => ?_, set_swap_interval_fields p env ctx⟩
  · rw [h] at hc
    simpa using hc.symm
  · rw [h] at hc
    simpa using hc.1

/-- C8 amended, on a fresh context on Linux with the EXT extension present:
the mechanism is available and the flag is set by the call. -/
theorem C8_set_swap_interval_witness :
    hasFlag (td_ctx_set_swap_interval .linux ⟨true, true, true, true⟩
      (td_ctx_init zero_ctx)).1.flags TDCTX_SWAP_INTERVAL_SET = true :=
  (C8_set_swap_interval .linux ⟨true, true, true, true⟩ (td_ctx_init zero_ctx)).2.1 (by decide)

/-! ## Windowed geometry across fullscreen -/

/-- While FULLSCREEN is set, resize and reposition callbacks leave the window
flags and the remembered windowed geometry alone. -/
theorem geometry_events_keep_windowed (p : Platform) (env : BindingOracle) (evs : List Event) :
    ∀ ctx : TDContext, (∀ e ∈ evs, is_geometry_event e = true) →
      hasFlag ctx.win.flags TDWIN_FULLSCREEN = true →
      (poll_events p env ctx evs).win.flags = ctx.win.flags ∧
      (poll_events p env ctx evs).win.windowed_pos = ctx.win.windowed_pos ∧
      (poll_events p env ctx evs).win.windowed_size = ctx.win.windowed_size := by
  induction evs with
  | nil => intro ctx _ _; exact ⟨rfl, rfl, rfl⟩
  | cons e rest ih =>
    intro ctx hg hf
    have he := hg e (List.mem_cons_self _ _)
    have hrest : ∀ x ∈ rest, is_geometry_event x = true :=
      fun x hx => hg x (List.mem_cons_of_mem _ hx)
    cases e with
    | key k sc a m => simp [is_geometry_event] at he
    | resize w h =>
      have hstep : (td_ctx_resize ctx w h).win.flags = ctx.win.flags ∧
          (td_ctx_resize ctx w h).win.windowed_pos = ctx.win.windowed_pos ∧
          (td_ctx_resize ctx w h).win.windowed_size = ctx.win.windowed_size := by
        simp [td_ctx_resize, hf]
      have := ih (td_ctx_resize ctx w h) hrest (by rw [hstep.1]; exact hf)
      simp only [poll_events, List.foldl_cons, dispatch_event] at this ⊢
      rw [this.1, this.2.1, this.2.2]
      exact hstep
    | reposition x y =>
      have hstep : (td_ctx_reposition ctx x y).win.flags = ctx.win.flags ∧
          (td_ctx_reposition ctx x y).win.windowed_pos = ctx.win.windowed_pos ∧
          (td_ctx_reposition ctx x y).win.windowed_size = ctx.win.windowed_size := by
        simp [td_ctx_reposition, hf]
      have := ih (td_ctx_reposition ctx x y) hrest (by rw [hstep.1]; exact hf)
      simp only [poll_events, List.foldl_cons, dispatch_event] at this ⊢
      rw [this.1, this.2.1, this.2.2]
      exact hstep

/-- Creating the window changes neither the window flags nor the remembered
windowed geometry. -/
theorem win_create_keeps_windowed (o : CreateOracle) (w : TDWindow) :
    (td_win_create o w).1.flags = w.flags ∧
    (td_win_create o w).1.windowed_pos = w.windowed_pos ∧
    (td_win_create o w).1.windowed_size = w.windowed_size := by
  unfold td_win_create
  simp only
  refine ⟨?_, ?_, ?_⟩ <;> repeat (first | rfl | split)

/-- Creating the window while FULLSCREEN is clear puts it at the remembered
windowed position and size, whatever the windowing library answers. -/
theorem win_create_windowed (o : CreateOracle) (w : TDWindow)
    (hf : hasFlag w.flags TDWIN_FULLSCREEN = false) :
    (td_win_create o w).1.pos = w.windowed_pos ∧
    (td_win_create o w).1.size = w.windowed_size := by
  unfold td_win_create
  simp only [hf]
  constructor <;> repeat (first | rfl | split)

/-- The fullscreen toggle flips FULLSCREEN, for any `fs_flags`, and does not
touch the remembered windowed geometry. -/
theorem switch_fullscreen_win (ctx : TDContext) (fs : Nat) :
    hasFlag (td_ctx_switch_fullscreen ctx fs).win.flags TDWIN_FULLSCREEN
      = !hasFlag ctx.win.flags TDWIN_FULLSCREEN ∧
    (td_ctx_switch_fullscreen ctx fs).win.windowed_pos = ctx.win.windowed_pos ∧
    (td_ctx_switch_fullscreen ctx fs).win.windowed_size = ctx.win.windowed_size := by
  simp only [td_ctx_switch_fullscreen, TDWIN_FULLSCREEN, TDWIN_FULLSCREEN_MODE_SWITCH,
    TDWIN_DECORATED, hasFlag_1]
  cases hb : ctx.win.flags.testBit 0 <;>
    simp +decide [Nat.testBit_or, Nat.testBit_and, bnot32, UINT_MAX, hb]

/-- C7. `td_ctx_resize` and `td_ctx_reposition` always store the live size or
position and store the windowed one only when FULLSCREEN is clear;
`td_win_create` with FULLSCREEN clear sets `pos`/`size` to the windowed ones.
Hence from a windowed context: entering fullscreen, any resize/reposition
callbacks, recreating the window (fullscreen), any further resize/reposition
callbacks, leaving fullscreen and recreating the window gives `pos`/`size`
equal to the windowed geometry one started with. -/
theorem C7_windowed_geometry_restored (p : Platform) (env : BindingOracle) (ctx : TDContext)
    (fs fs2 : Nat) (evs1 evs2 : List Event) (o1 o2 : CreateOracle) (w h x y : Int)
    (hwin : hasFlag ctx.win.flags TDWIN_FULLSCREEN = false)
    (h1 : ∀ e ∈ evs1, is_geometry_event e = true)
    (h2 : ∀ e ∈ evs2, is_geometry_event e = true) :
    (td_ctx_resize ctx w h).win.size = (w, h) ∧
    (td_ctx_resize ctx w h).win.windowed_size = (w, h) ∧
    (td_ctx_reposition ctx x y).win.pos = (x, y) ∧
    (td_ctx_reposition ctx x y).win.windowed_pos = (x, y) ∧
    (let f := td_ctx_switch_fullscreen ctx fs
     (td_ctx_resize f w h).win.size = (w, h) ∧
     (td_ctx_resize f w h).win.windowed_size = ctx.win.windowed_size ∧
     (td_ctx_reposition f x y).win.pos = (x, y) ∧
     (td_ctx_reposition f x y).win.windowed_pos = ctx.win.windowed_pos) ∧
    (td_win_create o1 ctx.win).1.pos = ctx.win.windowed_pos ∧
    (td_win_create o1 ctx.win).1.size = ctx.win.windowed_size ∧
    (let c1 := td_ctx_switch_fullscreen ctx fs
     let c2 := poll_events p env c1 evs1
     let c3 := recreate_window o1 c2
     let c4 := poll_events p env c3 evs2
     let c5 := td_ctx_switch_fullscreen c4 fs2
     let c6 := recreate_window o2 c5
     hasFlag c4.win.flags TDWIN_FULLSCREEN = true ∧
     hasFlag c5.win.flags TDWIN_FULLSCREEN = false ∧
     c6.win.pos = ctx.win.windowed_pos ∧ c6.win.size = ctx.win.windowed_size) := by
  have s1 := switch_fullscreen_win ctx fs
  rw [hwin] at s1
  have g1 := geometry_events_keep_windowed p env evs1 (td_ctx_switch_fullscreen ctx fs) h1 s1.1
  have k1 := win_create_keeps_windowed o1
    (poll_events p env (td_ctx_switch_fullscreen ctx fs) evs1).win
  have f3 : hasFlag (recreate_window o1
      (poll_events p env (td_ctx_switch_fullscreen ctx fs) evs1)).win.flags TDWIN_FULLSCREEN
        = true := by
    simp only [recreate_window, k1.1, g1.1]; exact s1.1
  have g2 := geometry_events_keep_windowed p env evs2 _ h2 f3
  have f4 : hasFlag (poll_events p env (recreate_window o1
      (poll_events p env (td_ctx_switch_fullscreen ctx fs) evs1)) evs2).win.flags
        TDWIN_FULLSCREEN = true := by
    rw [g2.1]; exact f3
  have s2 := switch_fullscreen_win (poll_events p env (recreate_window o1
      (poll_events p env (td_ctx_switch_fullscreen ctx fs) evs1)) evs2) fs2
  rw [f4] at s2
  have c6 := win_create_windowed o2 _ s2.1
  have hfull := win_create_windowed o1 ctx.win hwin
  have rs : ∀ c : TDContext, (td_ctx_resize c w h).win.size = (w, h) := by
    intro c; unfold td_ctx_resize; dsimp only; split <;> rfl
  have rp : ∀ c : TDContext, (td_ctx_reposition c x y).win.pos = (x, y) := by
    intro c; unfold td_ctx_reposition; dsimp only; split <;> rfl
  refine ⟨rs _, ?_, rp _, ?_, ⟨rs _, ?_, rp _, ?_⟩, hfull.1, hfull.2, f4, s2.1, ?_, ?_⟩
  · simp [td_ctx_resize, hwin]
  · simp [td_ctx_reposition, hwin]
  · have : (td_ctx_resize (td_ctx_switch_fullscreen ctx fs) w h).win.windowed_size
        = (td_ctx_switch_fullscreen ctx fs).win.windowed_size := by
      simp [td_ctx_resize, s1.1]
    rw [this, s1.2.2]
  · have : (td_ctx_reposition (td_ctx_switch_fullscreen ctx fs) x y).win.windowed_pos
        = (td_ctx_switch_fullscreen ctx fs).win.windowed_pos := by
      simp [td_ctx_reposition, s1.1]
    rw [this, s1.2.1]
  · show (td_win_create o2 _).1.pos = _
    rw [c6.1, s2.2.1, g2.2.1]
    simp only [recreate_window]
    rw [k1.2.1, g1.2.1, s1.2.1]
  · show (td_win_create o2 _).1.size = _
    rw [c6.2, s2.2.2, g2.2.2]
    simp only [recreate_window]
    rw [k1.2.2, g1.2.2, s1.2.2]

/-- C7 at the initial window (position 100,100): fullscreen is entered, the
window is resized to the screen and recreated, moved, fullscreen is left and
the window recreated: it is back at its windowed position. -/
theorem C7_windowed_geometry_restored_witness :
    (recreate_window ⟨none, some 2, true⟩
      (td_ctx_switch_fullscreen
        (poll_events .linux ⟨true, true, true, true⟩
          (recreate_window ⟨some (some ⟨1920, 1080⟩), some 1, true⟩
            (poll_events .linux ⟨true, true, true, true⟩
              (td_ctx_switch_fullscreen (td_ctx_init zero_ctx) 0) [Event.resize 1920 1080]))
          [Event.reposition 5 5])
        0)).win.pos = (td_ctx_init zero_ctx).win.windowed_pos :=
  (C7_windowed_geometry_restored .linux ⟨true, true, true, true⟩ (td_ctx_init zero_ctx) 0 0
    [Event.resize 1920 1080] [Event.reposition 5 5]
    ⟨some (some ⟨1920, 1080⟩), some 1, true⟩ ⟨none, some 2, true⟩ 0 0 0 0
    (by decide) (by simp [is_geometry_event]) (by simp [is_geometry_event])).2.2.2.2.2.2.2.2.2.1

/-! ## `sleep_nanoseconds` -/

/-- The retry loop, run on a series of interruptions followed by an attempt
that is not interrupted, requests the initial time and then each reported
remainder, and stops there. -/
theorem sleep_loop_interrupted (fin : SleepOutcome) (rest : List SleepOutcome)
    (hfin : ∀ r, fin ≠ SleepOutcome.interrupted r) (rems : List Timespec) :
    ∀ ts : Timespec,
      sleep_loop ts (rems.map SleepOutcome.interrupted ++ fin :: rest) = some (ts :: rems) := by
  induction rems with
  | nil =>
    intro ts
    cases fin with
    | completed => rfl
    | failed => rfl
    | interrupted r => exact absurd rfl (hfin r)
  | cons r more ih =>
    intro ts
    show sleep_loop ts (SleepOutcome.interrupted r ::
      (more.map SleepOutcome.interrupted ++ fin :: rest)) = _
    rw [sleep_loop, ih r]

/-- C10. With `nanosleep` answering a series of interruptions (EINTR, each
with a remaining time) followed by an attempt that is not interrupted:
`sleep_nanoseconds(amount)` returns, whatever would have come after; its first
request is exactly `amount` nanoseconds (`tv_sec * 10^9 + tv_nsec = amount`,
`0 ≤ tv_nsec < 10^9`); the request after each interrupted attempt is exactly
the remaining time that attempt reported; and the uninterrupted attempt is
the last one, be it a success or an error other than EINTR. -/
theorem C10_sleep_resumes_remaining (amount : Nat) (rems : List Timespec)
    (fin : SleepOutcome) (rest : List SleepOutcome)
    (hamount : amount < UINT64_RANGE)
    (hfin : ∀ r, fin ≠ SleepOutcome.interrupted r) :
    ∃ first : Timespec,
      sleep_nanoseconds amount (rems.map SleepOutcome.interrupted ++ fin :: rest)
        = some (first :: rems) ∧
      first.tv_sec * 1000000000 + first.tv_nsec = (amount : Int) ∧
      0 ≤ first.tv_nsec ∧ first.tv_nsec < 1000000000 ∧ 0 ≤ first.tv_sec := by
  refine ⟨_, sleep_loop_interrupted fin rest hfin rems _, ?_, ?_, ?_, ?_⟩ <;>
    simp only [wrap_int64, UINT64_RANGE] at hamount ⊢ <;> omega

/-- C10 for 2.5 s interrupted twice, with 2 s and then 0.7 s remaining: three
requests are made, the second and third for the reported remainders. -/
theorem C10_sleep_resumes_remaining_witness :
    ∃ first : Timespec,
      sleep_nanoseconds 2500000000
          ([⟨2, 0⟩, ⟨0, 700000000⟩].map SleepOutcome.interrupted
            ++ SleepOutcome.completed :: [SleepOutcome.interrupted ⟨9, 9⟩])
        = some (first :: [⟨2, 0⟩, ⟨0, 700000000⟩]) ∧
      first.tv_sec * 1000000000 + first.tv_nsec = ((2500000000 : Nat) : Int) ∧
      0 ≤ first.tv_nsec ∧ first.tv_nsec < 1000000000 ∧ 0 ≤ first.tv_sec :=
  C10_sleep_resumes_remaining 2500000000 [⟨2, 0⟩, ⟨0, 700000000⟩] SleepOutcome.completed
    [SleepOutcome.interrupted ⟨9, 9⟩] (by decide) (by intro r h; cases h)

/-! ## The main loop: what events leave alone -/

theorem same_timing_refl (a : TDContext) : same_timing a a :=
  ⟨rfl, rfl, rfl, rfl, rfl, rfl, rfl⟩

theorem same_timing_trans {a b c : TDContext} (h1 : same_timing a b) (h2 : same_timing b c) :
    same_timing a c := by
  obtain ⟨a1, a2, a3, a4, a5, a6, a7⟩ := h1
  obtain ⟨b1, b2, b3, b4, b5, b6, b7⟩ := h2
  exact ⟨b1.trans a1, b2.trans a2, b3.trans a3, b4.trans a4, b5.trans a5, b6.trans a6,
    b7.trans a7⟩

theorem same_timing_of_timing {a b : TDContext} (h : timing b = timing a) : same_timing a b := by
  simp only [timing, Prod.mk.injEq] at h
  exact h

theorem timing_set_swap_interval (p : Platform) (env : BindingOracle) (ctx : TDContext) :
    timing (td_ctx_set_swap_interval p env ctx).1 = timing ctx := by
  rw [set_swap_interval_fields]
  rfl

theorem timing_switch_fullscreen (ctx : TDContext) (fs : Nat) :
    timing (td_ctx_switch_fullscreen ctx fs) = timing ctx := rfl

/-- The key handler writes none of the loop's counters, statistics or ring. -/
theorem keyhandler_timing (p : Platform) (env : BindingOracle) (ctx : TDContext)
    (key sc action : Int) (mods : Nat) :
    same_timing ctx (td_ctx_keyhandler p env ctx key sc action mods) := by
  apply same_timing_of_timing
  unfold td_ctx_keyhandler
  simp only [apply_ite timing, timing_set_swap_interval, timing_switch_fullscreen]
  simp only [timing, ite_self]

/-- No callback writes any of the loop's counters, statistics or ring. -/
theorem poll_events_timing (p : Platform) (env : BindingOracle) (evs : List Event) :
    ∀ ctx : TDContext, same_timing ctx (poll_events p env ctx evs) := by
  induction evs with
  | nil => intro ctx; exact same_timing_refl ctx
  | cons e rest ih =>
    intro ctx
    have hstep : same_timing ctx (dispatch_event p env ctx e) := by
      cases e with
      | key k sc a m => exact keyhandler_timing p env ctx k sc a m
      | resize w h => exact ⟨rfl, rfl, rfl, rfl, rfl, rfl, rfl⟩
      | reposition x y => exact ⟨rfl, rfl, rfl, rfl, rfl, rfl, rfl⟩
    exact same_timing_trans hstep (ih _)

/-- The first part of the loop body writes none of the loop's counters,
statistics or ring, keeps the locals, and makes two calls. -/
theorem frame_present_spec (p : Platform) (env : BindingOracle) (i : FrameInput)
    (s : LoopState) :
    same_timing s.ctx (frame_present p env i s).ctx ∧
    (frame_present p env i s).lat_ms = s.lat_ms ∧
    (frame_present p env i s).t_start = s.t_start ∧
    (frame_present p env i s).t_last = s.t_last ∧
    (frame_present p env i s).t_prev = s.t_prev ∧
    ∃ w h, (frame_present p env i s).calls = s.calls ++ [GLCall.viewport w h, GLCall.swapBuffers] := by
  refine ⟨?_, rfl, rfl, rfl, rfl, _, _, rfl⟩
  have h1 := poll_events_timing p env i.events s.ctx
  unfold frame_present td_disp
  dsimp only
  split <;> split <;> exact h1

/-! ## The main loop: one iteration -/

/-- What the part of the loop body after `glfwSwapBuffers` does, from the
state `m` reached there. -/
theorem frame_tail_spec (i : FrameInput) (c : Fin 10) (m : LoopState) :
    let t := frame_stats i (frame_issue i c (frame_readback i c m))
    t.ctx.frame = (m.ctx.frame + 1) % UINT_RANGE ∧
    t.t_start = m.t_start ∧
    frames_done t = frames_done m ∧
    (m.ctx.frame < TIMER_QUERY_COUNT →
      samples_read t = samples_read m ∧ t.ctx.cur_lat = m.ctx.cur_lat ∧
      (frame_readback i c m).lat_ms = m.lat_ms) ∧
    (TIMER_QUERY_COUNT ≤ m.ctx.frame →
      samples_read t = samples_read m + 1 ∧
      t.ctx.cur_lat = (((i.query_result % UINT64_RANGE + UINT64_RANGE
        - m.ctx.timestamp c % UINT64_RANGE) % UINT64_RANGE : Nat) : Rat) / 1000000 ∧
      (frame_readback i c m).lat_ms = m.lat_ms + t.ctx.cur_lat) ∧
    (i.t_now - m.t_last ≤ 1 →
      t.ctx.avg_fps = m.ctx.avg_fps ∧ t.ctx.avg_lat = m.ctx.avg_lat ∧ t.t_last = m.t_last ∧
      t.ctx.frame_int = (m.ctx.frame_int + 1) % UINT_RANGE ∧
      t.lat_ms = (frame_readback i c m).lat_ms) ∧
    (1 < i.t_now - m.t_last →
      t.ctx.avg_fps = (((m.ctx.frame_int + 1) % UINT_RANGE : Nat) : Rat) / (i.t_now - m.t_last) ∧
      t.ctx.avg_lat = (frame_readback i c m).lat_ms
        / (((m.ctx.frame_int + 1) % UINT_RANGE : Nat) : Rat) ∧
      t.ctx.frame_int = 0 ∧ t.lat_ms = 0 ∧ t.t_last = i.t_now) := by
  intro t
  have hge : (10 ≤ m.ctx.frame) ∨ m.ctx.frame < 10 := le_or_lt _ _
  have hel : (1 < i.t_now - m.t_last) ∨ i.t_now - m.t_last ≤ 1 := lt_or_le _ _
  rcases hge with hge | hge <;> rcases hel with hel | hel <;>
    simp [t, frame_stats, frame_issue, frame_readback, TIMER_QUERY_COUNT, frames_done,
      samples_read, List.filter_append, hge, hel, not_le.mpr, not_lt.mpr]

/-- One iteration of the main loop, in terms of the state it starts from. -/
theorem main_loop_body_spec (p : Platform) (env : BindingOracle) (i : FrameInput)
    (s : LoopState) :
    let t := main_loop_body p env i s
    t.ctx.frame = (s.ctx.frame + 1) % UINT_RANGE ∧
    t.t_start = s.t_start ∧
    frames_done t = frames_done s + 1 ∧
    (s.ctx.frame < TIMER_QUERY_COUNT →
      samples_read t = samples_read s ∧ t.ctx.cur_lat = s.ctx.cur_lat ∧
      lat_before_stats p env i s = s.lat_ms) ∧
    (TIMER_QUERY_COUNT ≤ s.ctx.frame →
      samples_read t = samples_read s + 1 ∧
      t.ctx.cur_lat = (((i.query_result % UINT64_RANGE + UINT64_RANGE
        - s.ctx.timestamp (cur_query_of s.ctx.frame) % UINT64_RANGE) % UINT64_RANGE : Nat) : Rat)
          / 1000000 ∧
      lat_before_stats p env i s = s.lat_ms + t.ctx.cur_lat) ∧
    (i.t_now - s.t_last ≤ 1 →
      t.ctx.avg_fps = s.ctx.avg_fps ∧ t.ctx.avg_lat = s.ctx.avg_lat ∧ t.t_last = s.t_last ∧
      t.ctx.frame_int = (s.ctx.frame_int + 1) % UINT_RANGE ∧
      t.lat_ms = lat_before_stats p env i s) ∧
    (1 < i.t_now - s.t_last →
      t.ctx.avg_fps = (((s.ctx.frame_int + 1) % UINT_RANGE : Nat) : Rat) / (i.t_now - s.t_last) ∧
      t.ctx.avg_lat = lat_before_stats p env i s
        / (((s.ctx.frame_int + 1) % UINT_RANGE : Nat) : Rat) ∧
      t.ctx.frame_int = 0 ∧ t.lat_ms = 0 ∧ t.t_last = i.t_now) := by
  obtain ⟨⟨e1, e2, e3, e4, e5, e6, e7⟩, m1, m2, m3, m4, w, h, m5⟩ := frame_present_spec p env i s
  have hfd : frames_done (frame_present p env i s) = frames_done s + 1 := by
    simp [frames_done, m5]
  have hsr : samples_read (frame_present p env i s) = samples_read s := by
    simp [samples_read, m5, List.filter_append]
  have ht := frame_tail_spec i (cur_query_of s.ctx.frame) (frame_present p env i s)
  simp only [e1, e2, e3, e4, e5, e6, m1, m2, m3, hfd, hsr] at ht
  exact ht

/-- Step of the count `ring_samples`. -/
theorem ring_samples_succ (k : Nat) :
    ring_samples (k + 1) =
      ring_samples k + (if TIMER_QUERY_COUNT ≤ k % UINT_RANGE then 1 else 0) := by
  simp only [ring_samples, UINT_RANGE, TIMER_QUERY_COUNT]
  split <;> omega

/-- Below the wrap of the counter the count is `k - TIMER_QUERY_COUNT`. -/
theorem ring_samples_small (k : Nat) (h : k ≤ UINT_RANGE) :
    ring_samples k = k - TIMER_QUERY_COUNT := by
  simp only [ring_samples, UINT_RANGE, TIMER_QUERY_COUNT] at h ⊢
  omega

theorem ring_invariant_entry (t0 : Rat) (ctx : TDContext) :
    ring_invariant (main_loop_entry t0 ctx) := by
  simp [ring_invariant, main_loop_entry, frames_done, samples_read, ring_samples]

theorem ring_invariant_body (p : Platform) (env : BindingOracle) (i : FrameInput)
    (s : LoopState) (h : ring_invariant s) : ring_invariant (main_loop_body p env i s) := by
  obtain ⟨h1, h2, h3⟩ := h
  obtain ⟨b1, -, b3, b4, b5, b6, b7⟩ := main_loop_body_spec p env i s
  refine ⟨?_, ?_, ?_⟩
  · rw [b1, b3, h1]; simp only [UINT_RANGE]; omega
  · rw [b3, ring_samples_succ, ← h1, ← h2]
    by_cases hf : TIMER_QUERY_COUNT ≤ s.ctx.frame
    · rw [(b5 hf).1]; simp [hf]
    · rw [(b4 (not_le.mp hf)).1]; simp [hf]
  · intro hle
    rw [b3] at hle
    have hlt : frames_done s < TIMER_QUERY_COUNT := by omega
    have hfr : s.ctx.frame < TIMER_QUERY_COUNT := by
      rw [h1]; exact lt_of_le_of_lt (Nat.mod_le _ _) hlt
    have hmid := (b4 hfr).2.2
    rcases lt_or_le 1 (i.t_now - s.t_last) with hel | hel
    · exact (b7 hel).2.2.2.1
    · rw [(b6 hel).2.2.2.2, hmid]; exact h3 (by omega)

theorem ring_invariant_run (p : Platform) (env : BindingOracle) (frames : List FrameInput) :
    ∀ s : LoopState, ring_invariant s → ring_invariant (main_loop_run p env frames s) := by
  induction frames with
  | nil => intro s h; exact h
  | cons i rest ih =>
    intro s h
    unfold main_loop_run
    split
    · exact ih _ (ring_invariant_body p env i s h)
    · exact h

/-! ## The main loop: quiet frames -/

/-- A frame without events and close request leaves the context flags alone. -/
theorem quiet_body_flags (p : Platform) (env : BindingOracle) (i : FrameInput) (s : LoopState)
    (hq : quiet_frame i = true) : (main_loop_body p env i s).ctx.flags = s.ctx.flags := by
  simp only [quiet_frame, Bool.and_eq_true, List.isEmpty_iff, Bool.not_eq_true'] at hq
  obtain ⟨hev, hcl⟩ := hq
  by_cases h1 : 1 < i.t_now - s.t_last <;> by_cases h2 : TIMER_QUERY_COUNT ≤ s.ctx.frame <;>
    by_cases h3 : s.ctx.mode = TDDISP_BARS <;>
    simp [main_loop_body, frame_stats, frame_issue, frame_readback, frame_present, hev, hcl,
      poll_events, td_disp, h1, h2, h3]

/-- On quiet frames, from a state in which the loop condition holds, every
supplied frame is executed. -/
theorem quiet_run (p : Platform) (env : BindingOracle) (frames : List FrameInput) :
    ∀ s : LoopState, (∀ i ∈ frames, quiet_frame i = true) → loop_cond s.ctx = true →
      frames_done (main_loop_run p env frames s) = frames_done s + frames.length ∧
      loop_cond (main_loop_run p env frames s).ctx = true := by
  induction frames with
  | nil => intro s _ hc; exact ⟨rfl, hc⟩
  | cons i rest ih =>
    intro s hq hc
    have hqi := hq i (List.mem_cons_self _ _)
    have hc2 : loop_cond (main_loop_body p env i s).ctx = true := by
      unfold loop_cond at hc ⊢
      rw [quiet_body_flags p env i s hqi]; exact hc
    have := ih (main_loop_body p env i s) (fun x hx => hq x (List.mem_cons_of_mem _ hx)) hc2
    rw [main_loop_run, if_pos hc]
    refine ⟨?_, this.2⟩
    rw [this.1, (main_loop_body_spec p env i s).2.2.1, List.length_cons]
    omega

/-- One more frame at the end of the supplied ones is one more iteration from
the state reached, when the loop condition holds there. -/
theorem main_loop_run_snoc (p : Platform) (env : BindingOracle) (i : FrameInput)
    (frames : List FrameInput) :
    ∀ s : LoopState, loop_cond (main_loop_run p env frames s).ctx = true →
      main_loop_run p env (frames ++ [i]) s
        = main_loop_body p env i (main_loop_run p env frames s) := by
  induction frames with
  | nil =>
    intro s hc
    simp only [main_loop_run] at hc
    simp [main_loop_run, hc]
  | cons j rest ih =>
    intro s hc
    by_cases hs : loop_cond s.ctx = true
    · simp only [main_loop_run, hs, if_true, List.cons_append] at hc ⊢
      exact ih _ hc
    · simp only [main_loop_run, hs, if_false, List.cons_append] at hc ⊢
      exact absurd hc hs

/-! ## Latency samples and the query ring -/

/-- C1, as stated, fails once the 32-bit frame counter has wrapped: a
session of `2^32 + 1` idle frames runs every frame but reads back
`2^32 - 10` results, not `max(k - N, 0) = 2^32 - 9`; the frame with index
`2^32 ≥ N` is executed with the counter back at 0 and reads nothing. -/
theorem C1_counter_wraps :
    frames_done (td_ctx_main_loop .linux ⟨true, true, true, true⟩ 0
      (List.replicate 4294967297 idle_frame) (td_ctx_init zero_ctx)) = 4294967297 ∧
    samples_read (td_ctx_main_loop .linux ⟨true, true, true, true⟩ 0
      (List.replicate 4294967297 idle_frame) (td_ctx_init zero_ctx)) = 4294967286 ∧
    samples_read (td_ctx_main_loop .linux ⟨true, true, true, true⟩ 0
      (List.replicate 4294967297 idle_frame) (td_ctx_init zero_ctx))
        ≠ max (4294967297 - TIMER_QUERY_COUNT) 0 := by
  have hq : ∀ i ∈ List.replicate 4294967297 idle_frame, quiet_frame i = true := by
    intro i hi
    rw [List.eq_of_mem_replicate hi]
    rfl
  have hc : loop_cond (main_loop_entry 0 (td_ctx_init zero_ctx)).ctx = true := by decide
  have h1 := (quiet_run .linux ⟨true, true, true, true⟩ _ _ hq hc).1
  have h0 : frames_done (main_loop_entry 0 (td_ctx_init zero_ctx)) = 0 := rfl
  rw [List.length_replicate, h0, Nat.zero_add] at h1
  have h2 := (ring_invariant_run .linux ⟨true, true, true, true⟩
    (List.replicate 4294967297 idle_frame) _
    (ring_invariant_entry 0 (td_ctx_init zero_ctx))).2.1
  rw [h1] at h2
  have h3 : ring_samples 4294967297 = 4294967286 := by decide
  rw [h3] at h2
  unfold td_ctx_main_loop
  refine ⟨h1, h2, ?_⟩
  rw [h2]
  decide

/-- C1, amended. In `td_ctx_main_loop`, for the state `s` reached on any
supplied frames and `f` the number of frames executed so far: while the
32-bit frame counter has not wrapped (`f ≤ 2^32`) the session has read back
`max(f - N, 0)` results, `N = TIMER_QUERY_COUNT = 10`; an iteration with
frame index `f < N` reads back nothing and leaves `cur_lat` and the
accumulated latency (which is 0) as they are; an iteration with frame index
`N ≤ f < 2^32` reads back exactly one result and adds exactly that sample,
the new `cur_lat`, to the accumulated latency. -/
theorem C1_ring_samples (p : Platform) (env : BindingOracle) (t0 : Rat) (ctx : TDContext)
    (pre : List FrameInput) (i : FrameInput) :
    let s := td_ctx_main_loop p env t0 pre ctx
    let t := main_loop_body p env i s
    (frames_done s ≤ UINT_RANGE →
      samples_read s = max (frames_done s - TIMER_QUERY_COUNT) 0) ∧
    (frames_done s < TIMER_QUERY_COUNT →
      samples_read s = 0 ∧ samples_read t = 0 ∧
      t.ctx.cur_lat = s.ctx.cur_lat ∧
      lat_before_stats p env i s = s.lat_ms ∧ s.lat_ms = 0 ∧ t.lat_ms = 0) ∧
    (TIMER_QUERY_COUNT ≤ frames_done s → frames_done s < UINT_RANGE →
      samples_read t = samples_read s + 1 ∧
      lat_before_stats p env i s = s.lat_ms + t.ctx.cur_lat) ∧
    frames_done t = frames_done s + 1 := by
  intro s t
  have hinv : ring_invariant s := ring_invariant_run p env pre _ (ring_invariant_entry t0 ctx)
  have hinv2 : ring_invariant t := ring_invariant_body p env i s hinv
  obtain ⟨h1, h2, h3⟩ := hinv
  obtain ⟨b1, -, b3, b4, b5, -, -⟩ := main_loop_body_spec p env i s
  refine ⟨fun hle => ?_, fun hlt => ?_, fun hge hlt => ?_, b3⟩
  · rw [h2, ring_samples_small _ hle]; simp
  · have hfr : s.ctx.frame < TIMER_QUERY_COUNT := by
      rw [h1]; exact lt_of_le_of_lt (Nat.mod_le _ _) hlt
    have hs0 : samples_read s = 0 := by
      rw [h2, ring_samples_small _ (by simp only [UINT_RANGE, TIMER_QUERY_COUNT] at hlt ⊢; omega)]
      omega
    refine ⟨hs0, ?_, (b4 hfr).2.1, (b4 hfr).2.2, h3 (le_of_lt hlt), ?_⟩
    · rw [(b4 hfr).1, hs0]
    · exact hinv2.2.2 (by rw [b3]; omega)
  · have hfr : TIMER_QUERY_COUNT ≤ s.ctx.frame := by
      rw [h1, Nat.mod_eq_of_lt hlt]; exact hge
    exact ⟨(b5 hfr).1, (b5 hfr).2.2⟩

/-! ## Rolling statistics -/

theorem first_window_entry (o : GLInitOracle) (t0 : Rat) (ctx : TDContext) :
    first_window_state t0 (main_loop_entry t0 (td_ctx_gl_init o (td_ctx_reset ctx))) :=
  ⟨rfl, rfl, rfl, rfl⟩

/-- A frame that ends within the first second keeps the first window open. -/
theorem first_window_body (p : Platform) (env : BindingOracle) (t0 : Rat) (i : FrameInput)
    (s : LoopState) (h : first_window_state t0 s) (hi : i.t_now - t0 ≤ 1) :
    first_window_state t0 (main_loop_body p env i s) := by
  obtain ⟨h1, h2, h3, h4⟩ := h
  obtain ⟨-, -, b3, -, -, b6, -⟩ := main_loop_body_spec p env i s
  have hb := b6 (by rw [h3]; exact hi)
  refine ⟨hb.1.trans h1, hb.2.1.trans h2, hb.2.2.1.trans h3, ?_⟩
  rw [hb.2.2.2.1, b3, h4]
  simp only [UINT_RANGE]; omega

theorem first_window_run (p : Platform) (env : BindingOracle) (t0 : Rat)
    (frames : List FrameInput) :
    ∀ s : LoopState, first_window_state t0 s → (∀ j ∈ frames, j.t_now - t0 ≤ 1) →
      first_window_state t0 (main_loop_run p env frames s) := by
  induction frames with
  | nil => intro s h _; exact h
  | cons i rest ih =>
    intro s h hj
    unfold main_loop_run
    split
    · exact ih _ (first_window_body p env t0 i s h (hj i (List.mem_cons_self _ _)))
        (fun x hx => hj x (List.mem_cons_of_mem _ hx))
    · exact h

/-- The frame that ends after the first second closes the first window. -/
theorem first_window_close (p : Platform) (env : BindingOracle) (t0 : Rat) (i : FrameInput)
    (s : LoopState) (h : first_window_state t0 s) (hi : 1 < i.t_now - t0)
    (hn : frames_done s + 1 < UINT_RANGE) :
    (main_loop_body p env i s).ctx.avg_fps = ((frames_done s : Rat) + 1) / (i.t_now - t0) ∧
    (main_loop_body p env i s).ctx.avg_lat
      = lat_before_stats p env i s / ((frames_done s : Rat) + 1) ∧
    (main_loop_body p env i s).ctx.frame_int = 0 ∧
    (main_loop_body p env i s).lat_ms = 0 ∧
    (main_loop_body p env i s).t_last = i.t_now := by
  obtain ⟨h1, h2, h3, h4⟩ := h
  obtain ⟨-, -, -, -, -, -, b7⟩ := main_loop_body_spec p env i s
  have hb := b7 (by rw [h3]; exact hi)
  have hcnt : (s.ctx.frame_int + 1) % UINT_RANGE = frames_done s + 1 := by
    rw [h4]; simp only [UINT_RANGE] at hn ⊢; omega
  rw [hcnt, h3] at hb
  refine ⟨?_, ?_, hb.2.2.1, hb.2.2.2.1, hb.2.2.2.2⟩
  · rw [hb.1]; push_cast; rfl
  · rw [hb.2.1]; push_cast; rfl

theorem fixed_rate_frames_quiet (t0 dt : Rat) (res ts : Nat → Nat) (n : Nat) :
    ∀ i ∈ fixed_rate_frames t0 dt res ts n, quiet_frame i = true := by
  intro i hi
  simp only [fixed_rate_frames, List.mem_map, List.mem_range] at hi
  obtain ⟨k, -, rfl⟩ := hi
  rfl

theorem fixed_rate_frames_succ (t0 dt : Rat) (res ts : Nat → Nat) (n : Nat) :
    fixed_rate_frames t0 dt res ts (n + 1) = fixed_rate_frames t0 dt res ts n ++
      [{ events := [], should_close := false, phase := 0, t_now := t0 + ((n : Rat) + 1) * dt,
         query_result := res n, gl_timestamp := ts n }] := by
  simp [fixed_rate_frames, List.range_succ]

/-- At 16.67 ms per frame the first 59 frames end within the first second. -/
theorem fixed_rate_frames_early (t0 : Rat) (res ts : Nat → Nat) (n : Nat) (hn : n ≤ 59) :
    ∀ j ∈ fixed_rate_frames t0 (1667 / 100000) res ts n, j.t_now - t0 ≤ 1 := by
  intro j hj
  simp only [fixed_rate_frames, List.mem_map, List.mem_range] at hj
  obtain ⟨k, hk, rfl⟩ := hj
  have hk2 : (k : Rat) ≤ 58 := by exact_mod_cast (by omega : k ≤ 58)
  simp only [add_sub_cancel_left]
  linarith

/-- C1 amended, at the first frame of a session: nothing is read back. -/
theorem C1_ring_samples_witness :
    samples_read (main_loop_body .linux ⟨true, true, true, true⟩ idle_frame
      (td_ctx_main_loop .linux ⟨true, true, true, true⟩ 0 [] (td_ctx_init zero_ctx))) = 0 :=
  ((C1_ring_samples .linux ⟨true, true, true, true⟩ 0 (td_ctx_init zero_ctx) [] idle_frame).2.1
    (by decide)).2.1

/-! ## The query ring: slots, handles and timestamps -/

/-- What the part of the loop body after `glfwSwapBuffers` does to the ring
and which GL calls it makes, from the state `m` reached there. -/
theorem frame_tail_ring (i : FrameInput) (c : Fin 10) (m : LoopState) :
    let t := frame_stats i (frame_issue i c (frame_readback i c m))
    t.ctx.timer_query_obj = m.ctx.timer_query_obj ∧
    t.ctx.timestamp = Function.update m.ctx.timestamp c (i.gl_timestamp % UINT64_RANGE) ∧
    t.calls = m.calls ++
      ((if TIMER_QUERY_COUNT ≤ m.ctx.frame
          then [GLCall.getQueryObject (m.ctx.timer_query_obj c)] else []) ++
       [GLCall.queryCounter (m.ctx.timer_query_obj c), GLCall.getTimestamp]) := by
  intro t
  have hge : (10 ≤ m.ctx.frame) ∨ m.ctx.frame < 10 := le_or_lt _ _
  have hel : (1 < i.t_now - m.t_last) ∨ i.t_now - m.t_last ≤ 1 := lt_or_le _ _
  rcases hge with hge | hge <;> rcases hel with hel | hel <;>
    simp [t, frame_stats, frame_issue, frame_readback, TIMER_QUERY_COUNT, hge, hel,
      not_le.mpr, not_lt.mpr]

/-- One iteration of the main loop and the ring: the handles stay, the slot
of the current counter value receives the new timestamp, and the calls are
the viewport, the swap, the read-back on the slot's handle when the counter
has reached the ring size, and the new query on the slot's handle. -/
theorem main_loop_body_ring (p : Platform) (env : BindingOracle) (i : FrameInput)
    (s : LoopState) :
    let t := main_loop_body p env i s
    let c := cur_query_of s.ctx.frame
    t.ctx.timer_query_obj = s.ctx.timer_query_obj ∧
    t.ctx.timestamp = Function.update s.ctx.timestamp c (i.gl_timestamp % UINT64_RANGE) ∧
    ∃ w h, t.calls = s.calls ++
      ([GLCall.viewport w h, GLCall.swapBuffers] ++
       (if TIMER_QUERY_COUNT ≤ s.ctx.frame
          then [GLCall.getQueryObject (s.ctx.timer_query_obj c)] else []) ++
       [GLCall.queryCounter (s.ctx.timer_query_obj c), GLCall.getTimestamp]) := by
  obtain ⟨⟨e1, -, -, -, -, e6, e7⟩, -, -, -, -, w, h, m5⟩ := frame_present_spec p env i s
  have ht := frame_tail_ring i (cur_query_of s.ctx.frame) (frame_present p env i s)
  simp only [e1, e6, e7, m5] at ht
  refine ⟨ht.1, ht.2.1, w, h, ?_⟩
  show (frame_stats i _).calls = _
  rw [ht.2.2]
  simp [List.append_assoc]

/-- Frames less than a ring size apart use different slots. -/
theorem cur_query_of_ne (k n : Nat) (h1 : k < n) (h2 : n < k + TIMER_QUERY_COUNT) :
    cur_query_of k ≠ cur_query_of n := by
  simp only [cur_query_of, TIMER_QUERY_COUNT, ne_eq, Fin.mk.injEq] at h2 ⊢
  omega

/-- Frames exactly a ring size apart use the same slot. -/
theorem cur_query_of_sub (n : Nat) (h : TIMER_QUERY_COUNT ≤ n) :
    cur_query_of (n - TIMER_QUERY_COUNT) = cur_query_of n := by
  simp only [cur_query_of, TIMER_QUERY_COUNT, Fin.mk.injEq] at h ⊢
  omega

theorem ring_state_entry (o : GLInitOracle) (t0 : Rat) (ctx : TDContext) :
    ring_state o.queries [] (main_loop_entry t0 (td_ctx_gl_init o (td_ctx_reset ctx))) := by
  refine ⟨rfl, rfl, rfl, ?_⟩
  intro k j hk
  simp at hk

theorem ring_state_body (p : Platform) (env : BindingOracle) (handles : Fin 10 → Nat)
    (done : List FrameInput) (i : FrameInput) (s : LoopState)
    (h : ring_state handles done s) (hlt : done.length + 1 < UINT_RANGE) :
    ring_state handles (done ++ [i]) (main_loop_body p env i s) := by
  obtain ⟨h1, h2, h3, h4⟩ := h
  obtain ⟨b1, -, b3, -⟩ := main_loop_body_spec p env i s
  obtain ⟨r1, r2, -⟩ := main_loop_body_ring p env i s
  refine ⟨?_, ?_, r1.trans h3, ?_⟩
  · rw [b1, h1, List.length_append, List.length_singleton]
    exact Nat.mod_eq_of_lt hlt
  · rw [b3, h2, List.length_append, List.length_singleton]
  · intro k j hk hle
    rw [List.length_append, List.length_singleton] at hle
    rw [r2, h1]
    rcases Nat.lt_trichotomy k done.length with hlt2 | heq | hgt
    · rw [List.getElem?_append_left hlt2] at hk
      rw [Function.update_noteq (cur_query_of_ne k done.length hlt2 (by omega))]
      exact h4 k j hk (by omega)
    · subst heq
      rw [List.getElem?_append_right (le_refl _)] at hk
      simp only [Nat.sub_self, List.getElem?_cons_zero, Option.some.injEq] at hk
      rw [Function.update_same, hk]
    · rw [List.getElem?_eq_none (by simp; omega)] at hk
      cases hk

theorem main_loop_run_cons (p : Platform) (env : BindingOracle) (i : FrameInput)
    (rest : List FrameInput) (s : LoopState) :
    main_loop_run p env (i :: rest) s =
      if loop_cond s.ctx then main_loop_run p env rest (main_loop_body p env i s) else s := rfl

/-- When every frame of a list has been executed, every frame of a prefix of
it has been executed on that prefix. -/
theorem executed_prefix (p : Platform) (env : BindingOracle) (a b : List FrameInput) :
    ∀ s : LoopState,
      frames_done (main_loop_run p env (a ++ b) s) = frames_done s + (a ++ b).length →
      frames_done (main_loop_run p env a s) = frames_done s + a.length := by
  induction a with
  | nil => intro s _; rfl
  | cons i rest ih =>
    intro s h
    have hb := (main_loop_body_spec p env i s).2.2.1
    rw [List.cons_append, main_loop_run_cons, List.length_cons] at h
    rw [main_loop_run_cons, List.length_cons]
    by_cases hc : loop_cond s.ctx = true
    · rw [if_pos hc] at h ⊢
      have := ih (main_loop_body p env i s) (by rw [h, hb]; omega)
      rw [this, hb]; omega
    · rw [if_neg hc] at h
      omega

theorem ring_state_run (p : Platform) (env : BindingOracle) (handles : Fin 10 → Nat)
    (rest : List FrameInput) :
    ∀ (done : List FrameInput) (s : LoopState), ring_state handles done s →
      (done ++ rest).length < UINT_RANGE →
      frames_done (main_loop_run p env rest s) = frames_done s + rest.length →
      ring_state handles (done ++ rest) (main_loop_run p env rest s) := by
  induction rest with
  | nil => intro done s h _ _; simpa using h
  | cons i rest ih =>
    intro done s h hlt hall
    have hb := (main_loop_body_spec p env i s).2.2.1
    rw [List.length_append, List.length_cons] at hlt
    rw [main_loop_run_cons, List.length_cons] at hall
    rw [main_loop_run_cons]
    by_cases hc : loop_cond s.ctx = true
    · rw [if_pos hc] at hall ⊢
      have := ih (done ++ [i]) (main_loop_body p env i s)
        (ring_state_body p env handles done i s h (by omega))
        (by simp only [List.length_append, List.length_singleton]; omega)
        (by rw [hall, hb]; omega)
      simpa [List.append_assoc] using this
    · rw [if_neg hc] at hall
      omega

/-- In a session all of whose supplied frames were executed, below the wrap
of the counter, the ring is in the state described by `ring_state`. -/
theorem session_ring_state (p : Platform) (env : BindingOracle) (o : GLInitOracle) (t0 : Rat)
    (ctx : TDContext) (pre : List FrameInput)
    (hall : frames_done (td_ctx_session p env o t0 pre ctx) = pre.length)
    (hlt : pre.length < UINT_RANGE) :
    ring_state o.queries pre (td_ctx_session p env o t0 pre ctx) := by
  have := ring_state_run p env o.queries pre [] _ (ring_state_entry o t0 ctx)
    (by simpa using hlt)
    (by
      have h0 : frames_done (main_loop_entry t0 (td_ctx_gl_init o (td_ctx_reset ctx))) = 0 := rfl
      rw [h0, Nat.zero_add]; exact hall)
  simpa using this

/-- In a session all of whose supplied frames were executed, the first `n`
frames were executed when only they are supplied. -/
theorem session_prefix_executed (p : Platform) (env : BindingOracle) (o : GLInitOracle)
    (t0 : Rat) (ctx : TDContext) (pre : List FrameInput) (n : Nat)
    (hall : frames_done (td_ctx_session p env o t0 pre ctx) = pre.length) :
    frames_done (td_ctx_session p env o t0 (pre.take n) ctx) = (pre.take n).length := by
  have h0 : frames_done (main_loop_entry t0 (td_ctx_gl_init o (td_ctx_reset ctx))) = 0 := rfl
  have := executed_prefix p env (pre.take n) (pre.drop n)
    (main_loop_entry t0 (td_ctx_gl_init o (td_ctx_reset ctx)))
    (by rw [List.take_append_drop, h0, Nat.zero_add]; exact hall)
  rw [h0, Nat.zero_add] at this
  exact this

/-- C11. In a session whose supplied frames `pre` were all executed, with
`f = |pre| < 2^32` and `N = TIMER_QUERY_COUNT`: frame `f` uses slot
`f mod N < N`, issues its query on the session's handle of that slot and
records its timestamp there; when `f ≥ N` it reads back that same handle,
frame `f - N` of this session used the same slot, issued its query on the
same handle and recorded its timestamp `ts` there, that `ts` is what the slot
still holds at frame `f`, and the sample is
`((result - ts) mod 2^64) / 10^6`. -/
theorem C11_ring_slots (p : Platform) (env : BindingOracle) (o : GLInitOracle) (t0 : Rat)
    (ctx : TDContext) (pre : List FrameInput) (i : FrameInput)
    (hall : frames_done (td_ctx_session p env o t0 pre ctx) = pre.length)
    (hlt : pre.length < UINT_RANGE) :
    let s := td_ctx_session p env o t0 pre ctx
    let t := main_loop_body p env i s
    let c := cur_query_of s.ctx.frame
    s.ctx.frame = pre.length ∧
    (c : Nat) = pre.length % TIMER_QUERY_COUNT ∧ (c : Nat) < TIMER_QUERY_COUNT ∧
    (∃ w h, t.calls = s.calls ++
      ([GLCall.viewport w h, GLCall.swapBuffers] ++
       (if TIMER_QUERY_COUNT ≤ pre.length then [GLCall.getQueryObject (o.queries c)] else []) ++
       [GLCall.queryCounter (o.queries c), GLCall.getTimestamp])) ∧
    t.ctx.timestamp c = i.gl_timestamp % UINT64_RANGE ∧
    t.ctx.timer_query_obj = o.queries ∧
    (TIMER_QUERY_COUNT ≤ pre.length →
      ∃ j, pre[pre.length - TIMER_QUERY_COUNT]? = some j ∧
        (let s0 := td_ctx_session p env o t0 (pre.take (pre.length - TIMER_QUERY_COUNT)) ctx
         s0.ctx.frame = pre.length - TIMER_QUERY_COUNT ∧
         cur_query_of s0.ctx.frame = c ∧
         (∃ w h, (main_loop_body p env j s0).calls = s0.calls ++
           ([GLCall.viewport w h, GLCall.swapBuffers] ++
            (if TIMER_QUERY_COUNT ≤ pre.length - TIMER_QUERY_COUNT
              then [GLCall.getQueryObject (o.queries c)] else []) ++
            [GLCall.queryCounter (o.queries c), GLCall.getTimestamp])) ∧
         (main_loop_body p env j s0).ctx.timestamp c = j.gl_timestamp % UINT64_RANGE) ∧
        s.ctx.timestamp c = j.gl_timestamp % UINT64_RANGE ∧
        t.ctx.cur_lat = (((i.query_result % UINT64_RANGE + UINT64_RANGE
          - j.gl_timestamp % UINT64_RANGE) % UINT64_RANGE : Nat) : Rat) / 1000000) := by
  intro s t c
  obtain ⟨h1, -, h3, h4⟩ := session_ring_state p env o t0 ctx pre hall hlt
  obtain ⟨r1, r2, w, h, r3⟩ := main_loop_body_ring p env i s
  have hc : c = cur_query_of pre.length := by simp only [c]; rw [h1]
  refine ⟨h1, ?_, c.isLt, ⟨w, h, ?_⟩, ?_, r1.trans h3, ?_⟩
  · rw [hc]; rfl
  · rw [r3, h3, h1, hc]
  · rw [r2]; exact Function.update_same _ _ _
  · intro hge
    have hidx : pre.length - TIMER_QUERY_COUNT < pre.length := by
      simp only [TIMER_QUERY_COUNT] at hge ⊢; omega
    refine ⟨pre[pre.length - TIMER_QUERY_COUNT], List.getElem?_eq_getElem hidx, ?_, ?_, ?_⟩
    · have hlen : (pre.take (pre.length - TIMER_QUERY_COUNT)).length
          = pre.length - TIMER_QUERY_COUNT := by
        rw [List.length_take]; omega
      have hall0 := session_prefix_executed p env o t0 ctx pre
        (pre.length - TIMER_QUERY_COUNT) hall
      obtain ⟨g1, -, g3, -⟩ := session_ring_state p env o t0 ctx _ hall0 (by omega)
      rw [hlen] at g1
      obtain ⟨-, q2, w0, h0, q3⟩ := main_loop_body_ring p env
        pre[pre.length - TIMER_QUERY_COUNT]
        (td_ctx_session p env o t0 (pre.take (pre.length - TIMER_QUERY_COUNT)) ctx)
      have hslot : cur_query_of (pre.length - TIMER_QUERY_COUNT) = c := by
        rw [hc]; exact cur_query_of_sub pre.length hge
      refine ⟨g1, ?_, ⟨w0, h0, ?_⟩, ?_⟩
      · rw [g1]; exact hslot
      · rw [q3, g3, g1, hslot]
      · rw [q2, g1, hslot]; exact Function.update_same _ _ _
    · rw [hc, ← cur_query_of_sub pre.length hge]
      exact h4 _ _ (List.getElem?_eq_getElem hidx) (by simp only [TIMER_QUERY_COUNT] at hge ⊢; omega)
    · have hfr : TIMER_QUERY_COUNT ≤ s.ctx.frame := by rw [h1]; exact hge
      have hcl := ((main_loop_body_spec p env i s).2.2.2.2.1 hfr).2.1
      have hts : s.ctx.timestamp (cur_query_of s.ctx.frame)
          = pre[pre.length - TIMER_QUERY_COUNT].gl_timestamp % UINT64_RANGE := by
        rw [h1, ← cur_query_of_sub pre.length hge]
        exact h4 _ _ (List.getElem?_eq_getElem hidx)
          (by simp only [TIMER_QUERY_COUNT] at hge ⊢; omega)
      rw [hcl, hts]
      simp

/-- C11 for a session of eleven idle frames: the twelfth frame uses slot
`11 mod 10`. -/
theorem C11_ring_slots_witness :
    ((cur_query_of (td_ctx_session .linux ⟨true, true, true, true⟩ ⟨1, 0, 1, fun k => 100 + k⟩ 0
        (List.replicate 11 idle_frame) (td_ctx_init zero_ctx)).ctx.frame : Fin 10) : Nat)
      = (List.replicate 11 idle_frame).length % TIMER_QUERY_COUNT :=
  (C11_ring_slots .linux ⟨true, true, true, true⟩ ⟨1, 0, 1, fun k => 100 + k⟩ 0
    (td_ctx_init zero_ctx) (List.replicate 11 idle_frame) idle_frame
    ((quiet_run .linux ⟨true, true, true, true⟩ (List.replicate 11 idle_frame) _
        (fun i hi => by rw [List.eq_of_mem_replicate hi]; rfl) (by decide)).1.trans (by decide))
    (by decide)).2.1

/-! ## The session state machine -/

theorem hasFlag_16 (x : Nat) : hasFlag x 16 = x.testBit 4 := hasFlag_two_pow x 4

theorem hasFlag_32 (x : Nat) : hasFlag x 32 = x.testBit 5 := hasFlag_two_pow x 5

/-- The inner loop condition holds exactly when RUN is set and DROP_WINDOW is
clear. -/
theorem loop_cond_flags (ctx : TDContext) :
    loop_cond ctx = (hasFlag ctx.flags TDCTX_RUN && !hasFlag ctx.flags TDCTX_DROP_WINDOW) := by
  simp only [loop_cond, TDCTX_RUN, TDCTX_DROP_WINDOW, hasFlag_1, hasFlag_2]
  have h3 : ctx.flags &&& (1 ||| 2) = ctx.flags % 4 := Nat.and_pow_two_sub_one_eq_mod ctx.flags 2
  rw [h3, Nat.testBit_zero, Nat.testBit_succ, Nat.testBit_zero]
  rcases Nat.mod_two_eq_zero_or_one ctx.flags with h0 | h0 <;>
    rcases Nat.mod_two_eq_zero_or_one (ctx.flags / 2) with h1 | h1 <;>
    simp [h0, h1] <;> omega

/-- What `td_ctx_reset` does to each flag and to the statistics. -/
theorem reset_flags (ctx : TDContext) :
    hasFlag (td_ctx_reset ctx).flags TDCTX_DROP_WINDOW = false ∧
    hasFlag (td_ctx_reset ctx).flags TDCTX_BINDING_EXTENSIONS_LOADED = false ∧
    hasFlag (td_ctx_reset ctx).flags TDCTX_SWAP_INTERVAL_SET = false ∧
    hasFlag (td_ctx_reset ctx).flags TDCTX_RUN = hasFlag ctx.flags TDCTX_RUN ∧
    hasFlag (td_ctx_reset ctx).flags TDCTX_GL_FLUSH = hasFlag ctx.flags TDCTX_GL_FLUSH ∧
    hasFlag (td_ctx_reset ctx).flags TDCTX_GL_FINISH = hasFlag ctx.flags TDCTX_GL_FINISH := by
  simp +decide [td_ctx_reset, TDCTX_RUN, TDCTX_DROP_WINDOW, TDCTX_SWAP_INTERVAL_SET,
    TDCTX_BINDING_EXTENSIONS_LOADED, TDCTX_GL_FLUSH, TDCTX_GL_FINISH, hasFlag_1, hasFlag_2,
    hasFlag_4, hasFlag_8, hasFlag_16, hasFlag_32, Nat.testBit_and, bnot32, UINT_MAX]

/-- The end of an outer iteration leaves the flags and drops the window. -/
theorem session_teardown_spec (ctx : TDContext) :
    (session_teardown ctx).flags = ctx.flags ∧ (session_teardown ctx).win.win = none :=
  ⟨rfl, rfl⟩

/-- With RUN clear the outer loop ends at once: nothing is created. -/
theorem td_ctx_run_stop (p : Platform) (env : BindingOracle) (sessions : List SessionInput)
    (ctx : TDContext) (h : hasFlag ctx.flags TDCTX_RUN = false) :
    td_ctx_run p env sessions ctx = ([], RunOutcome.returned ctx) := by
  cases sessions <;> simp [td_ctx_run, h]

/-- With RUN set and no window, a failing `td_win_create` ends the process
with code 3 before any session starts. -/
theorem td_ctx_run_create_fails (p : Platform) (env : BindingOracle) (si : SessionInput)
    (rest : List SessionInput) (ctx : TDContext)
    (hrun : hasFlag ctx.flags TDCTX_RUN = true) (hwin : ctx.win.win = none)
    (hrc : (td_win_create si.create ctx.win).2 ≠ 0) :
    td_ctx_run p env (si :: rest) ctx =
      ([RunEvent.win_create (td_win_create si.create ctx.win).2],
       RunOutcome.exited 3 { ctx with win := (td_win_create si.create ctx.win).1 }) := by
  simp [td_ctx_run, hrun, hwin, hrc]

/-- With RUN set and no window, a successful `td_win_create` is followed by
the reset, the GL initialisation and the entry into the main loop. -/
theorem td_ctx_run_session (p : Platform) (env : BindingOracle) (si : SessionInput)
    (rest : List SessionInput) (ctx : TDContext)
    (hrun : hasFlag ctx.flags TDCTX_RUN = true) (hwin : ctx.win.win = none)
    (hrc : (td_win_create si.create ctx.win).2 = 0) :
    let entry := td_ctx_gl_init si.gl
      (td_ctx_reset { ctx with win := (td_win_create si.create ctx.win).1 })
    let s := td_ctx_main_loop p env si.t0 si.frames entry
    td_ctx_run p env (si :: rest) ctx =
      if loop_cond s.ctx then
        ([RunEvent.win_create 0, RunEvent.session_entry entry], RunOutcome.in_session s)
      else
        (RunEvent.win_create 0 :: RunEvent.session_entry entry ::
          (td_ctx_run p env rest (session_teardown s.ctx)).1,
         (td_ctx_run p env rest (session_teardown s.ctx)).2) := by
  intro entry s
  simp only [td_ctx_run, hrun, hwin, hrc, if_true, Option.isNone_none, bne_self_eq_false,
    Bool.and_false, Bool.false_eq_true, if_false]
  split <;> rfl

theorem td_disp_flags (phase : Rat) (ctx : TDContext) : (td_disp phase ctx).flags = ctx.flags := by
  unfold td_disp
  split <;> rfl

theorem frame_tail_flags (i : FrameInput) (c : Fin 10) (m : LoopState) :
    (frame_stats i (frame_issue i c (frame_readback i c m))).ctx.flags = m.ctx.flags := by
  have hge : (10 ≤ m.ctx.frame) ∨ m.ctx.frame < 10 := le_or_lt _ _
  have hel : (1 < i.t_now - m.t_last) ∨ i.t_now - m.t_last ≤ 1 := lt_or_le _ _
  rcases hge with hge | hge <;> rcases hel with hel | hel <;>
    simp [frame_stats, frame_issue, frame_readback, TIMER_QUERY_COUNT, hge, hel,
      not_le.mpr, not_lt.mpr]

/-- The flags after one iteration of the main loop are those the callbacks
left, with RUN cleared on a close request. -/
theorem main_loop_body_flags (p : Platform) (env : BindingOracle) (i : FrameInput)
    (s : LoopState) :
    (main_loop_body p env i s).ctx.flags =
      (if i.should_close then (poll_events p env s.ctx i.events).flags &&& bnot32 TDCTX_RUN
       else (poll_events p env s.ctx i.events).flags) := by
  show (frame_stats i (frame_issue i _ (frame_readback i _ (frame_present p env i s)))).ctx.flags
    = _
  rw [frame_tail_flags]
  unfold frame_present
  dsimp only
  rw [td_disp_flags]
  split <;> rfl

/-- What the keys ENTER and `W` do to the context. -/
theorem key_enter (p : Platform) (env : BindingOracle) (ctx : TDContext)
    (sc : Int) (mods : Nat) :
    td_ctx_keyhandler p env ctx GLFW_KEY_ENTER sc GLFW_PRESS mods =
      { ctx with flags := ctx.flags ||| TDCTX_DROP_WINDOW } := by
  simp only [td_ctx_keyhandler, GLFW_KEY_RIGHT, GLFW_KEY_LEFT, GLFW_KEY_SPACE,
    GLFW_KEY_BACKSPACE, GLFW_KEY_ESCAPE, GLFW_PRESS, GLFW_KEY_ENTER, KEY_W]
  simp only [Int.reduceEq, or_self, or_false, false_or, true_or, if_true, if_false, reduceIte]

/-- Once the loop condition fails no further frame is executed. -/
theorem main_loop_run_stopped (p : Platform) (env : BindingOracle) (frames : List FrameInput)
    (s : LoopState) (h : loop_cond s.ctx = false) : main_loop_run p env frames s = s := by
  cases frames with
  | nil => rfl
  | cons i rest => rw [main_loop_run_cons, h]; rfl

/-- A session whose first frame brings an ENTER press executes that frame
and leaves the inner loop with DROP_WINDOW set and RUN still set. -/
theorem drop_frame_exits (p : Platform) (env : BindingOracle) (t0 : Rat)
    (rest : List FrameInput) (entry : TDContext) (h : loop_cond entry = true) :
    td_ctx_main_loop p env t0 (drop_frame :: rest) entry
      = main_loop_body p env drop_frame (main_loop_entry t0 entry) ∧
    (td_ctx_main_loop p env t0 (drop_frame :: rest) entry).ctx.flags
      = entry.flags ||| TDCTX_DROP_WINDOW ∧
    loop_cond (td_ctx_main_loop p env t0 (drop_frame :: rest) entry).ctx = false ∧
    hasFlag (td_ctx_main_loop p env t0 (drop_frame :: rest) entry).ctx.flags TDCTX_RUN = true ∧
    frames_done (td_ctx_main_loop p env t0 (drop_frame :: rest) entry) = 1 := by
  have hentry : loop_cond (main_loop_entry t0 entry).ctx = true := h
  have hflags : (main_loop_body p env drop_frame (main_loop_entry t0 entry)).ctx.flags
      = entry.flags ||| TDCTX_DROP_WINDOW := by
    rw [main_loop_body_flags]
    simp only [drop_frame, poll_events, List.foldl_cons, List.foldl_nil, dispatch_event,
      key_enter, Bool.false_eq_true, if_false]
    rfl
  rw [loop_cond_flags, Bool.and_eq_true, Bool.not_eq_true'] at h
  simp only [TDCTX_RUN, TDCTX_DROP_WINDOW, hasFlag_1, hasFlag_2] at h
  have hrun : hasFlag (entry.flags ||| TDCTX_DROP_WINDOW) TDCTX_RUN = true := by
    rw [TDCTX_RUN, hasFlag_1, Nat.testBit_or, h.1]; rfl
  have hdrop : hasFlag (entry.flags ||| TDCTX_DROP_WINDOW) TDCTX_DROP_WINDOW = true := by
    simp +decide [TDCTX_DROP_WINDOW, hasFlag_2, Nat.testBit_or]
  have hstop : loop_cond (main_loop_body p env drop_frame (main_loop_entry t0 entry)).ctx
      = false := by
    rw [loop_cond_flags, hflags, hrun, hdrop]; rfl
  have hrun_eq : td_ctx_main_loop p env t0 (drop_frame :: rest) entry
      = main_loop_body p env drop_frame (main_loop_entry t0 entry) := by
    unfold td_ctx_main_loop
    rw [main_loop_run_cons, if_pos hentry, main_loop_run_stopped p env rest _ hstop]
  rw [hrun_eq]
  refine ⟨rfl, hflags, hstop, by rw [hflags]; exact hrun, ?_⟩
  rw [(main_loop_body_spec p env drop_frame (main_loop_entry t0 entry)).2.2.1]
  rfl

/-- When `glfwCreateWindow` returns `NULL`, `td_win_create` returns -1. -/
theorem win_create_fails (o : CreateOracle) (w : TDWindow) (h : o.created = none) :
    (td_win_create o w).2 = -1 := by
  unfold td_win_create
  simp only [h]

/-- C12, as stated, fails when the window cannot be created again: the
program starts, a drop is requested in the first session, the inner loop
exits with RUN still set, and `glfwCreateWindow` then returns `NULL`: the
process ends with exit code 3 and no second session is started. -/
theorem C12_recreate_fails :
    loop_cond (td_ctx_main_loop .linux ⟨true, true, true, true⟩ 0 [drop_frame, idle_frame]
      first_entry).ctx = false ∧
    hasFlag (td_ctx_main_loop .linux ⟨true, true, true, true⟩ 0 [drop_frame, idle_frame]
      first_entry).ctx.flags TDCTX_RUN = true ∧
    sessions_started (td_ctx_run .linux ⟨true, true, true, true⟩ [failing_session]
      (session_teardown (td_ctx_main_loop .linux ⟨true, true, true, true⟩ 0
        [drop_frame, idle_frame] first_entry).ctx)).1 = 0 ∧
    exit_code (td_ctx_run .linux ⟨true, true, true, true⟩ [failing_session]
      (session_teardown (td_ctx_main_loop .linux ⟨true, true, true, true⟩ 0
        [drop_frame, idle_frame] first_entry).ctx)).2 = some 3 ∧
    sessions_started (td_ctx_run .linux ⟨true, true, true, true⟩
      [drop_session, failing_session] (td_ctx_init zero_ctx)).1 = 1 ∧
    exit_code (td_ctx_run .linux ⟨true, true, true, true⟩
      [drop_session, failing_session] (td_ctx_init zero_ctx)).2 = some 3 := by
  have hentry : loop_cond first_entry = true := by decide
  obtain ⟨-, -, hstop, hrunx, -⟩ :=
    drop_frame_exits .linux ⟨true, true, true, true⟩ 0 [idle_frame] first_entry hentry
  have h2 := td_ctx_run_create_fails .linux ⟨true, true, true, true⟩ failing_session []
    (session_teardown (td_ctx_main_loop .linux ⟨true, true, true, true⟩ 0
      [drop_frame, idle_frame] first_entry).ctx)
    (by rw [(session_teardown_spec _).1]; exact hrunx) (session_teardown_spec _).2
    (by rw [win_create_fails _ _ rfl]; decide)
  have h1 : td_ctx_run .linux ⟨true, true, true, true⟩ [drop_session, failing_session]
      (td_ctx_init zero_ctx) =
      if loop_cond (td_ctx_main_loop .linux ⟨true, true, true, true⟩ 0 [drop_frame, idle_frame]
          first_entry).ctx then
        ([RunEvent.win_create 0, RunEvent.session_entry first_entry],
          RunOutcome.in_session (td_ctx_main_loop .linux ⟨true, true, true, true⟩ 0
            [drop_frame, idle_frame] first_entry))
      else
        (RunEvent.win_create 0 :: RunEvent.session_entry first_entry ::
          (td_ctx_run .linux ⟨true, true, true, true⟩ [failing_session]
            (session_teardown (td_ctx_main_loop .linux ⟨true, true, true, true⟩ 0
              [drop_frame, idle_frame] first_entry).ctx)).1,
         (td_ctx_run .linux ⟨true, true, true, true⟩ [failing_session]
            (session_teardown (td_ctx_main_loop .linux ⟨true, true, true, true⟩ 0
              [drop_frame, idle_frame] first_entry).ctx)).2) :=
    td_ctx_run_session .linux ⟨true, true, true, true⟩ drop_session [failing_session]
      (td_ctx_init zero_ctx) (by decide) rfl (by decide)
  rw [hstop] at h1
  simp only [Bool.false_eq_true, if_false] at h1
  rw [h1, h2]
  refine ⟨hstop, hrunx, ?_, rfl, ?_, rfl⟩ <;> simp [sessions_started]

/-- C12, amended. Over the context flags: the inner loop runs another frame
exactly when RUN is set and DROP_WINDOW is clear; `td_ctx_reset` clears
DROP_WINDOW, BINDING_EXTENSIONS_LOADED and SWAP_INTERVAL_SET, sets `avg_fps`,
`avg_lat` and `cur_lat` to -1 and leaves RUN, GL_FLUSH and GL_FINISH as they
are.  When the inner loop has exited with RUN still set (so on a drop
request), the outer loop calls `td_win_create`; if that succeeds it resets the
context and enters a new session whose inner-loop condition holds on entry,
and if it fails the process ends with exit code 3 without a reset or a
session.  When RUN is clear the outer loop ends and no window is created. -/
theorem C12_session_state_machine (p : Platform) (env : BindingOracle) (ctx : TDContext)
    (s : LoopState) (i : FrameInput) (frames : List FrameInput) (si : SessionInput)
    (rest : List SessionInput) :
    (loop_cond ctx = true ↔
      (hasFlag ctx.flags TDCTX_RUN = true ∧ hasFlag ctx.flags TDCTX_DROP_WINDOW = false)) ∧
    (main_loop_run p env (i :: frames) s =
      if hasFlag s.ctx.flags TDCTX_RUN = true ∧ hasFlag s.ctx.flags TDCTX_DROP_WINDOW = false
      then main_loop_run p env frames (main_loop_body p env i s) else s) ∧
    (hasFlag (td_ctx_reset ctx).flags TDCTX_DROP_WINDOW = false ∧
     hasFlag (td_ctx_reset ctx).flags TDCTX_BINDING_EXTENSIONS_LOADED = false ∧
     hasFlag (td_ctx_reset ctx).flags TDCTX_SWAP_INTERVAL_SET = false ∧
     (td_ctx_reset ctx).avg_fps = -1 ∧ (td_ctx_reset ctx).avg_lat = -1 ∧
     (td_ctx_reset ctx).cur_lat = -1 ∧
     hasFlag (td_ctx_reset ctx).flags TDCTX_RUN = hasFlag ctx.flags TDCTX_RUN ∧
     hasFlag (td_ctx_reset ctx).flags TDCTX_GL_FLUSH = hasFlag ctx.flags TDCTX_GL_FLUSH ∧
     hasFlag (td_ctx_reset ctx).flags TDCTX_GL_FINISH = hasFlag ctx.flags TDCTX_GL_FINISH) ∧
    (loop_cond s.ctx = false → hasFlag s.ctx.flags TDCTX_RUN = true →
      hasFlag s.ctx.flags TDCTX_DROP_WINDOW = true ∧
      ((td_win_create si.create (session_teardown s.ctx).win).2 = 0 →
        ∃ entry tail,
          (td_ctx_run p env (si :: rest) (session_teardown s.ctx)).1
            = RunEvent.win_create 0 :: RunEvent.session_entry entry :: tail ∧
          entry = td_ctx_gl_init si.gl (td_ctx_reset { session_teardown s.ctx with
            win := (td_win_create si.create (session_teardown s.ctx).win).1 }) ∧
          loop_cond entry = true ∧
          loop_cond (main_loop_entry si.t0 entry).ctx = true ∧
          entry.avg_fps = -1 ∧ entry.avg_lat = -1 ∧ entry.cur_lat = -1) ∧
      ((td_win_create si.create (session_teardown s.ctx).win).2 ≠ 0 →
        td_ctx_run p env (si :: rest) (session_teardown s.ctx) =
          ([RunEvent.win_create (td_win_create si.create (session_teardown s.ctx).win).2],
           RunOutcome.exited 3 { session_teardown s.ctx with
             win := (td_win_create si.create (session_teardown s.ctx).win).1 }))) ∧
    (hasFlag ctx.flags TDCTX_RUN = false →
      td_ctx_run p env (si :: rest) ctx = ([], RunOutcome.returned ctx) ∧
      td_ctx_run p env [] ctx = ([], RunOutcome.returned ctx)) := by
  have hcond : ∀ c : TDContext, loop_cond c = true ↔
      (hasFlag c.flags TDCTX_RUN = true ∧ hasFlag c.flags TDCTX_DROP_WINDOW = false) := by
    intro c
    rw [loop_cond_flags, Bool.and_eq_true, Bool.not_eq_true']
  obtain ⟨f1, f2, f3, f4, f5, f6⟩ := reset_flags ctx
  refine ⟨hcond ctx, ?_, ⟨f1, f2, f3, rfl, rfl, rfl, f4, f5, f6⟩, ?_, ?_⟩
  · rw [main_loop_run_cons]
    by_cases hc : loop_cond s.ctx = true
    · rw [if_pos hc, if_pos ((hcond s.ctx).mp hc)]
    · rw [if_neg hc, if_neg (fun h => hc ((hcond s.ctx).mpr h))]
  · intro hstop hrun
    have hdrop : hasFlag s.ctx.flags TDCTX_DROP_WINDOW = true := by
      by_contra hd
      have := (hcond s.ctx).mpr ⟨hrun, by simpa using hd⟩
      rw [hstop] at this
      cases this
    have hrun2 : hasFlag (session_teardown s.ctx).flags TDCTX_RUN = true := by
      rw [(session_teardown_spec _).1]; exact hrun
    refine ⟨hdrop, fun hrc => ?_, fun hrc => ?_⟩
    · have hs := td_ctx_run_session p env si rest (session_teardown s.ctx) hrun2
        (session_teardown_spec _).2 hrc
      have hentry : loop_cond (td_ctx_gl_init si.gl (td_ctx_reset { session_teardown s.ctx with
          win := (td_win_create si.create (session_teardown s.ctx).win).1 })) = true := by
        rw [hcond]
        obtain ⟨g1, -, -, g4, -, -⟩ := reset_flags { session_teardown s.ctx with
          win := (td_win_create si.create (session_teardown s.ctx).win).1 }
        exact ⟨g4.trans hrun2, g1⟩
      simp only at hs
      by_cases hc : loop_cond (td_ctx_main_loop p env si.t0 si.frames
          (td_ctx_gl_init si.gl (td_ctx_reset { session_teardown s.ctx with
            win := (td_win_create si.create (session_teardown s.ctx).win).1 }))).ctx = true
      · rw [if_pos hc] at hs
        exact ⟨_, [], by rw [hs], rfl, hentry, hentry, rfl, rfl, rfl⟩
      · rw [if_neg hc] at hs
        exact ⟨_, _, by rw [hs], rfl, hentry, hentry, rfl, rfl, rfl⟩
    · exact td_ctx_run_create_fails p env si rest (session_teardown s.ctx) hrun2
        (session_teardown_spec _).2 hrc
  · intro h
    exact ⟨td_ctx_run_stop p env _ ctx h, td_ctx_run_stop p env _ ctx h⟩

/-- C12 amended, after the first session of a run in which ENTER was pressed:
the inner loop has stopped with RUN set, so DROP_WINDOW is set. -/
theorem C12_session_state_machine_witness :
    hasFlag (td_ctx_main_loop .linux ⟨true, true, true, true⟩ 0 [drop_frame, idle_frame]
      first_entry).ctx.flags TDCTX_DROP_WINDOW = true :=
  ((C12_session_state_machine .linux ⟨true, true, true, true⟩ first_entry
    (td_ctx_main_loop .linux ⟨true, true, true, true⟩ 0 [drop_frame, idle_frame] first_entry)
    idle_frame [] drop_session []).2.2.2.1
    (drop_frame_exits .linux ⟨true, true, true, true⟩ 0 [idle_frame] first_entry
      (by decide)).2.2.1
    (drop_frame_exits .linux ⟨true, true, true, true⟩ 0 [idle_frame] first_entry
      (by decide)).2.2.2.1).1

/-! ## Rolling statistics: the latency sum of the first window -/

/-- The sample of a frame depends only on the frames up to it. -/
theorem latency_sample_append (done : List FrameInput) (i : FrameInput) (k : Nat)
    (hk : k < done.length) :
    latency_sample (done ++ [i]) k = latency_sample done k := by
  unfold latency_sample
  rw [List.getElem?_append_left hk, List.getElem?_append_left (by omega)]

theorem window_latency_succ (frames : List FrameInput) (n : Nat) :
    window_latency frames (n + 1) = window_latency frames n + latency_sample frames n := by
  simp [window_latency, List.range_succ]

theorem window_latency_append (done : List FrameInput) (i : FrameInput) :
    window_latency (done ++ [i]) done.length = window_latency done done.length := by
  unfold window_latency
  congr 1
  apply List.map_congr_left
  intro k hk
  exact latency_sample_append done i k (List.mem_range.mp hk)

/-- With the ring in the state described by `ring_state`, the latency sum
that reaches the statistics block is the sum before the frame plus the sample
of the frame. -/
theorem lat_before_stats_sample (p : Platform) (env : BindingOracle) (handles : Fin 10 → Nat)
    (done : List FrameInput) (i : FrameInput) (s : LoopState)
    (h : ring_state handles done s) :
    lat_before_stats p env i s = s.lat_ms + latency_sample (done ++ [i]) done.length := by
  obtain ⟨h1, -, -, h4⟩ := h
  obtain ⟨-, -, -, b4, b5, -, -⟩ := main_loop_body_spec p env i s
  have hi : (done ++ [i])[done.length]? = some i := by
    rw [List.getElem?_append_right (le_refl _)]; simp
  rcases lt_or_le done.length TIMER_QUERY_COUNT with hlt | hge
  · rw [(b4 (by rw [h1]; exact hlt)).2.2]
    unfold latency_sample
    rw [hi]
    cases (done ++ [i])[done.length - TIMER_QUERY_COUNT]? <;> simp [not_le.mpr hlt]
  · have hidx : done.length - TIMER_QUERY_COUNT < done.length := by
      simp only [TIMER_QUERY_COUNT] at hge ⊢; omega
    have hb := b5 (by rw [h1]; exact hge)
    have hts : s.ctx.timestamp (cur_query_of s.ctx.frame)
        = done[done.length - TIMER_QUERY_COUNT].gl_timestamp % UINT64_RANGE := by
      rw [h1, ← cur_query_of_sub done.length hge]
      exact h4 _ _ (List.getElem?_eq_getElem hidx)
        (by simp only [TIMER_QUERY_COUNT] at hge ⊢; omega)
    rw [hb.2.2, hb.2.1, hts]
    unfold latency_sample
    rw [hi, List.getElem?_append_left hidx, List.getElem?_eq_getElem hidx]
    simp [hge]

theorem window_state_entry (o : GLInitOracle) (t0 : Rat) (ctx : TDContext) :
    window_state t0 o.queries [] (main_loop_entry t0 (td_ctx_gl_init o (td_ctx_reset ctx))) :=
  ⟨ring_state_entry o t0 ctx, first_window_entry o t0 ctx, by simp [main_loop_entry, window_latency]⟩

/-- A frame that ends within the first second adds its sample to the sum. -/
theorem window_state_body (p : Platform) (env : BindingOracle) (t0 : Rat)
    (handles : Fin 10 → Nat) (done : List FrameInput) (i : FrameInput) (s : LoopState)
    (h : window_state t0 handles done s) (hlt : done.length + 1 < UINT_RANGE)
    (hi : i.t_now - t0 ≤ 1) :
    window_state t0 handles (done ++ [i]) (main_loop_body p env i s) := by
  obtain ⟨hr, hw, hl⟩ := h
  refine ⟨ring_state_body p env handles done i s hr hlt, first_window_body p env t0 i s hw hi, ?_⟩
  have hb := (main_loop_body_spec p env i s).2.2.2.2.2.1 (by rw [hw.2.2.1]; exact hi)
  rw [hb.2.2.2.2, lat_before_stats_sample p env handles done i s hr, hl,
    List.length_append, List.length_singleton, window_latency_succ, window_latency_append]

/-- The frame that ends after the first second sets the averages from the
number of frames and the sum of their samples. -/
theorem window_state_close (p : Platform) (env : BindingOracle) (t0 : Rat)
    (handles : Fin 10 → Nat) (done : List FrameInput) (i : FrameInput) (s : LoopState)
    (h : window_state t0 handles done s) (hlt : done.length + 1 < UINT_RANGE)
    (hi : 1 < i.t_now - t0) :
    (main_loop_body p env i s).ctx.avg_fps = ((done.length : Rat) + 1) / (i.t_now - t0) ∧
    (main_loop_body p env i s).ctx.avg_lat
      = window_latency (done ++ [i]) (done.length + 1) / ((done.length : Rat) + 1) := by
  obtain ⟨hr, hw, hl⟩ := h
  have hc := first_window_close p env t0 i s hw hi (by rw [hr.2.1]; exact hlt)
  rw [hr.2.1] at hc
  refine ⟨hc.1, ?_⟩
  rw [hc.2.1, lat_before_stats_sample p env handles done i s hr, hl, window_latency_succ,
    window_latency_append]

theorem window_state_run (p : Platform) (env : BindingOracle) (t0 : Rat)
    (handles : Fin 10 → Nat) (rest : List FrameInput) :
    ∀ (done : List FrameInput) (s : LoopState), window_state t0 handles done s →
      (done ++ rest).length < UINT_RANGE →
      (∀ j ∈ rest, j.t_now - t0 ≤ 1) →
      frames_done (main_loop_run p env rest s) = frames_done s + rest.length →
      window_state t0 handles (done ++ rest) (main_loop_run p env rest s) := by
  induction rest with
  | nil => intro done s h _ _ _; simpa using h
  | cons i rest ih =>
    intro done s h hlt hj hall
    have hb := (main_loop_body_spec p env i s).2.2.1
    rw [List.length_append, List.length_cons] at hlt
    rw [main_loop_run_cons, List.length_cons] at hall
    rw [main_loop_run_cons]
    by_cases hc : loop_cond s.ctx = true
    · rw [if_pos hc] at hall ⊢
      have := ih (done ++ [i]) (main_loop_body p env i s)
        (window_state_body p env t0 handles done i s h (by omega)
          (hj i (List.mem_cons_self _ _)))
        (by simp only [List.length_append, List.length_singleton]; omega)
        (fun x hx => hj x (List.mem_cons_of_mem _ hx))
        (by rw [hall, hb]; omega)
      simpa [List.append_assoc] using this
    · rw [if_neg hc] at hall
      omega

/-- In a session all of whose supplied frames were executed and ended within
the first second, the loop is in the state described by `window_state`. -/
theorem session_window_state (p : Platform) (env : BindingOracle) (o : GLInitOracle) (t0 : Rat)
    (ctx : TDContext) (pre : List FrameInput)
    (hall : frames_done (td_ctx_session p env o t0 pre ctx) = pre.length)
    (hlt : pre.length < UINT_RANGE) (hpre : ∀ j ∈ pre, j.t_now - t0 ≤ 1) :
    window_state t0 o.queries pre (td_ctx_session p env o t0 pre ctx) := by
  have := window_state_run p env t0 o.queries pre [] _ (window_state_entry o t0 ctx)
    (by simpa using hlt) hpre
    (by
      have h0 : frames_done (main_loop_entry t0 (td_ctx_gl_init o (td_ctx_reset ctx))) = 0 := rfl
      rw [h0, Nat.zero_add]; exact hall)
  simpa using this

/-! ## Rolling statistics: the averages -/


/-- With frames of 1/2^33 s the first `2^32` frames end within the first
second. -/
theorem fixed_rate_frames_tiny (t0 : Rat) (res ts : Nat → Nat) (n : Nat)
    (hn : n ≤ 4294967296) :
    ∀ j ∈ fixed_rate_frames t0 (1 / 8589934592) res ts n, j.t_now - t0 ≤ 1 := by
  intro j hj
  simp only [fixed_rate_frames, List.mem_map, List.mem_range] at hj
  obtain ⟨k, hk, rfl⟩ := hj
  have hk2 : (k : Rat) + 1 ≤ 4294967296 := by exact_mod_cast (by omega : k + 1 ≤ 4294967296)
  simp only [add_sub_cancel_left]
  linarith

/-- A first window of `2^32` frames: after `2^32 - 1` quiet frames that end
within the first second, `late_frame` closes the window with the 32-bit
window counter back at 0. -/
theorem first_window_of_max_frames (pre : List FrameInput)
    (hq : ∀ i ∈ pre, quiet_frame i = true) (hpre : ∀ j ∈ pre, j.t_now - 0 ≤ 1)
    (hlen : pre.length = 4294967295) :
    (td_ctx_session .linux ⟨true, true, true, true⟩ ⟨1, 0, 1, fun _ => 7⟩ 0 pre
      (td_ctx_init zero_ctx)).ctx.avg_fps = -1 ∧
    frames_done (td_ctx_session .linux ⟨true, true, true, true⟩ ⟨1, 0, 1, fun _ => 7⟩ 0
      (pre ++ [late_frame]) (td_ctx_init zero_ctx)) = 4294967296 ∧
    (td_ctx_session .linux ⟨true, true, true, true⟩ ⟨1, 0, 1, fun _ => 7⟩ 0
      (pre ++ [late_frame]) (td_ctx_init zero_ctx)).ctx.avg_fps = 0 := by
  have hc : loop_cond (main_loop_entry 0 (td_ctx_gl_init ⟨1, 0, 1, fun _ => 7⟩
      (td_ctx_reset (td_ctx_init zero_ctx)))).ctx = true := by decide
  obtain ⟨hd, hc2⟩ := quiet_run .linux ⟨true, true, true, true⟩ pre _ hq hc
  have h0 : frames_done (main_loop_entry 0 (td_ctx_gl_init ⟨1, 0, 1, fun _ => 7⟩
      (td_ctx_reset (td_ctx_init zero_ctx)))) = 0 := rfl
  rw [h0, Nat.zero_add, hlen] at hd
  have hw := first_window_run .linux ⟨true, true, true, true⟩ 0 pre _
    (first_window_entry ⟨1, 0, 1, fun _ => 7⟩ 0 (td_ctx_init zero_ctx)) hpre
  have hsnoc := main_loop_run_snoc .linux ⟨true, true, true, true⟩ late_frame pre _ hc2
  obtain ⟨-, -, b3, -, -, -, b7⟩ := main_loop_body_spec .linux ⟨true, true, true, true⟩
    late_frame (main_loop_run .linux ⟨true, true, true, true⟩ pre
      (main_loop_entry 0 (td_ctx_gl_init ⟨1, 0, 1, fun _ => 7⟩
        (td_ctx_reset (td_ctx_init zero_ctx)))))
  obtain ⟨w1, -, w3, w4⟩ := hw
  have hb := (b7 (by rw [w3]; norm_num [late_frame])).1
  rw [w4, hd] at hb
  have hz : ((4294967295 % UINT_RANGE + 1) % UINT_RANGE : Nat) = 0 := by decide
  rw [hz] at hb
  unfold td_ctx_session td_ctx_main_loop
  rw [hsnoc, b3, hd, hb]
  exact ⟨w1, rfl, by simp⟩

/-- C6, as stated, fails when `2^32` frames fall into the first window: after
`2^32 - 1` frames of 1/2^33 s each (averages still -1) a frame that ends at
2 s closes the window; the 32-bit window counter has wrapped to 0 and
`avg_fps` is set to 0, not to `2^32 / 2`. -/
theorem C6_window_counter_wraps :
    (td_ctx_session .linux ⟨true, true, true, true⟩ ⟨1, 0, 1, fun _ => 7⟩ 0
      (fixed_rate_frames 0 (1 / 8589934592) (fun _ => 0) (fun _ => 0) 4294967295)
      (td_ctx_init zero_ctx)).ctx.avg_fps = -1 ∧
    frames_done (td_ctx_session .linux ⟨true, true, true, true⟩ ⟨1, 0, 1, fun _ => 7⟩ 0
      (fixed_rate_frames 0 (1 / 8589934592) (fun _ => 0) (fun _ => 0) 4294967295
        ++ [late_frame]) (td_ctx_init zero_ctx)) = 4294967296 ∧
    (td_ctx_session .linux ⟨true, true, true, true⟩ ⟨1, 0, 1, fun _ => 7⟩ 0
      (fixed_rate_frames 0 (1 / 8589934592) (fun _ => 0) (fun _ => 0) 4294967295
        ++ [late_frame]) (td_ctx_init zero_ctx)).ctx.avg_fps = 0 ∧
    (td_ctx_session .linux ⟨true, true, true, true⟩ ⟨1, 0, 1, fun _ => 7⟩ 0
      (fixed_rate_frames 0 (1 / 8589934592) (fun _ => 0) (fun _ => 0) 4294967295
        ++ [late_frame]) (td_ctx_init zero_ctx)).ctx.avg_fps
      ≠ 4294967296 / (late_frame.t_now - 0) := by
  have h := first_window_of_max_frames
    (fixed_rate_frames 0 (1 / 8589934592) (fun _ => 0) (fun _ => 0) 4294967295)
    (fixed_rate_frames_quiet _ _ _ _ _)
    (fixed_rate_frames_tiny 0 _ _ 4294967295 (by decide))
    (by simp only [fixed_rate_frames, List.length_map, List.length_range])
  refine ⟨h.1, h.2.1, h.2.2, ?_⟩
  rw [h.2.2]
  norm_num [late_frame]

/-- C6, amended. In a session (`td_ctx_reset`, then the main loop entered at
`t0`), with times as exact rationals: `avg_fps` and `avg_lat` are -1 after the
reset and after every frame as long as no frame has ended more than 1.0 s
after `t0`; the first frame that ends more than 1.0 s after `t0`, when the
window then holds fewer than `2^32` frames, sets `avg_fps` to the number of
frames of the window divided by the elapsed time and `avg_lat` to the
accumulated latency divided by that number, and resets the window counter and
the latency sum to 0.  When every supplied frame was executed, that number is
the number of supplied frames and the accumulated latency is the sum, over
the frames `k ≥ 10` of the window, of
`((result of frame k - timestamp of frame k-10) mod 2^64) / 10^6`.  At a
fixed 16.67 ms frame time the averages still read -1 after each of the first
59 frames and the 60th frame, ending at 1.0002 s, sets `avg_fps` to
60 / 1.0002 and `avg_lat` to the sum of the 50 samples divided by 60. -/
theorem C6_rolling_stats (p : Platform) (env : BindingOracle) (o : GLInitOracle) (t0 : Rat)
    (ctx : TDContext) (pre : List FrameInput) (i : FrameInput)
    (hpre : ∀ j ∈ pre, j.t_now - t0 ≤ 1) :
    let s := td_ctx_session p env o t0 pre ctx
    let t := main_loop_body p env i s
    (td_ctx_reset ctx).avg_fps = -1 ∧ (td_ctx_reset ctx).avg_lat = -1 ∧
    s.ctx.avg_fps = -1 ∧ s.ctx.avg_lat = -1 ∧
    (i.t_now - t0 ≤ 1 → t.ctx.avg_fps = -1 ∧ t.ctx.avg_lat = -1) ∧
    (1 < i.t_now - t0 → frames_done s + 1 < UINT_RANGE →
      t.ctx.avg_fps = ((frames_done s : Rat) + 1) / (i.t_now - t0) ∧
      0 < t.ctx.avg_fps ∧
      t.ctx.avg_lat = lat_before_stats p env i s / ((frames_done s : Rat) + 1) ∧
      t.ctx.frame_int = 0 ∧ t.lat_ms = 0) ∧
    (frames_done s = pre.length → pre.length + 1 < UINT_RANGE → 1 < i.t_now - t0 →
      t.ctx.avg_fps = ((pre.length : Rat) + 1) / (i.t_now - t0) ∧
      t.ctx.avg_lat = window_latency (pre ++ [i]) (pre.length + 1) / ((pre.length : Rat) + 1)) ∧
    (∀ (c : TDContext) (res ts : Nat → Nat),
      let run := fun n => td_ctx_session p env o t0
        (fixed_rate_frames t0 (1667 / 100000) res ts n) (td_ctx_init c)
      (∀ n, n ≤ 59 → frames_done (run n) = n ∧
        (run n).ctx.avg_fps = -1 ∧ (run n).ctx.avg_lat = -1) ∧
      frames_done (run 60) = 60 ∧
      (run 60).ctx.avg_fps = 60 / (10002 / 10000) ∧
      (run 60).ctx.avg_lat = lat_before_stats p env
        { events := [], should_close := false, phase := 0,
          t_now := t0 + (((59 : Nat) : Rat) + 1) * (1667 / 100000),
          query_result := res 59, gl_timestamp := ts 59 } (run 59) / 60 ∧
      (run 60).ctx.avg_lat
        = window_latency (fixed_rate_frames t0 (1667 / 100000) res ts 60) 60 / 60 ∧
      (run 60).ctx.frame_int = 0) := by
  intro s t
  have hs : first_window_state t0 s :=
    first_window_run p env t0 pre _ (first_window_entry o t0 ctx) hpre
  refine ⟨rfl, rfl, hs.1, hs.2.1, fun hi => ?_, fun hi hn => ?_, fun hall hlt hi => ?_, ?_⟩
  · have ht := first_window_body p env t0 i s hs hi
    exact ⟨ht.1, ht.2.1⟩
  · have ht := first_window_close p env t0 i s hs hi hn
    refine ⟨ht.1, ?_, ht.2.1, ht.2.2.1, ht.2.2.2.1⟩
    rw [ht.1]
    have : (0 : Rat) ≤ (frames_done s : Rat) := Nat.cast_nonneg _
    apply div_pos <;> linarith
  · exact window_state_close p env t0 o.queries pre i s
      (session_window_state p env o t0 ctx pre hall (by omega) hpre) hlt hi
  · intro c res ts run
    have hc : loop_cond (main_loop_entry t0 (td_ctx_gl_init o (td_ctx_reset (td_ctx_init c)))).ctx
        = true := by
      simp +decide [loop_cond, main_loop_entry, td_ctx_gl_init, td_ctx_reset, td_ctx_init,
        TDCTX_FLAGS_DEFAULT, TDCTX_RUN, TDCTX_DROP_WINDOW, TDCTX_BINDING_EXTENSIONS_LOADED,
        TDCTX_SWAP_INTERVAL_SET, bnot32, UINT_MAX]
    have hdone : ∀ n, frames_done (run n) = n := by
      intro n
      have := (quiet_run p env _ _ (fixed_rate_frames_quiet t0 (1667 / 100000) res ts n) hc).1
      simp only [fixed_rate_frames, List.length_map, List.length_range] at this
      simpa [run, td_ctx_session, td_ctx_main_loop, fixed_rate_frames, frames_done,
        main_loop_entry] using this
    have hwin : ∀ n, n ≤ 59 → first_window_state t0 (run n) := fun n hn =>
      first_window_run p env t0 _ _ (first_window_entry o t0 (td_ctx_init c))
        (fixed_rate_frames_early t0 res ts n hn)
    have h60 : run 60 = main_loop_body p env
        { events := [], should_close := false, phase := 0,
          t_now := t0 + (((59 : Nat) : Rat) + 1) * (1667 / 100000),
          query_result := res 59, gl_timestamp := ts 59 } (run 59) := by
      have hc59 := (quiet_run p env _ _
        (fixed_rate_frames_quiet t0 (1667 / 100000) res ts 59) hc).2
      simp only [run, td_ctx_session, td_ctx_main_loop]
      rw [fixed_rate_frames_succ t0 (1667 / 100000) res ts 59]
      exact main_loop_run_snoc p env _ _ _ hc59
    have hcl := first_window_close p env t0
      { events := [], should_close := false, phase := 0,
        t_now := t0 + (((59 : Nat) : Rat) + 1) * (1667 / 100000),
        query_result := res 59, gl_timestamp := ts 59 } (run 59) (hwin 59 (le_refl _))
      (by simp only [add_sub_cancel_left]; norm_num)
      (by rw [hdone 59]; simp [UINT_RANGE])
    rw [hdone 59] at hcl
    have hlen59 : (fixed_rate_frames t0 (1667 / 100000) res ts 59).length = 59 := by
      simp only [fixed_rate_frames, List.length_map, List.length_range]
    have hws : window_state t0 o.queries (fixed_rate_frames t0 (1667 / 100000) res ts 59)
        (run 59) :=
      session_window_state p env o t0 (td_ctx_init c) _
        (by rw [hlen59]; exact hdone 59) (by rw [hlen59]; simp [UINT_RANGE])
        (fixed_rate_frames_early t0 res ts 59 (le_refl _))
    have hcl2 := (window_state_close p env t0 o.queries _
      { events := [], should_close := false, phase := 0,
        t_now := t0 + (((59 : Nat) : Rat) + 1) * (1667 / 100000),
        query_result := res 59, gl_timestamp := ts 59 } (run 59) hws
      (by rw [hlen59]; simp [UINT_RANGE])
      (by simp only [add_sub_cancel_left]; norm_num)).2
    rw [← fixed_rate_frames_succ t0 (1667 / 100000) res ts 59, hlen59] at hcl2
    refine ⟨fun n hn => ⟨hdone n, (hwin n hn).1, (hwin n hn).2.1⟩, hdone 60, ?_, ?_, ?_, ?_⟩
    · rw [h60, hcl.1]; simp only [add_sub_cancel_left]; norm_num
    · rw [h60, hcl.2.1]; norm_num
    · rw [h60, hcl2]; norm_num
    · rw [h60, hcl.2.2.1]

/-- C6 for a first window of two frames: after frames ending at 0.4 s and
0.9 s the averages are still -1. -/
theorem C6_rolling_stats_witness :
    (td_ctx_session .linux ⟨true, true, true, true⟩ ⟨1, 0, 1, fun _ => 7⟩ 0
      [⟨[], false, 0, 2 / 5, 0, 0⟩, ⟨[], false, 0, 9 / 10, 0, 0⟩]
      (td_ctx_init zero_ctx)).ctx.avg_fps = -1 :=
  (C6_rolling_stats .linux ⟨true, true, true, true⟩ ⟨1, 0, 1, fun _ => 7⟩ 0
    (td_ctx_init zero_ctx) [⟨[], false, 0, 2 / 5, 0, 0⟩, ⟨[], false, 0, 9 / 10, 0, 0⟩]
    idle_frame (by norm_num)).2.2.1

end GLTearDetect
